import Mathlib

/-!
Verification development for the SSIS-to-IR migration parser
(models/ir.py, parser/secure.py, parser/to_ir.py, parser/precedence_parser.py,
parser/dataflow_parser.py, parser/project_parser.py).

The Python code is shallowly embedded: pydantic models become Lean structures,
string-backed enums become inductives carrying their string value, dictionaries
become association lists, exceptions become Except, and Python "Any" values are
modelled as JSON values (the IR is a stable JSON schema, and the parser only
ever stores JSON-representable data in Any-typed fields).
-/

namespace SSISMig

/-- JSON value, standing in for Python `Any` in the IR models and for the
JSON document produced by `model_dump_json`.  Numbers are modelled as
integers (the parser never produces fractional values). -/
inductive Json where
  | null : Json
  | bool (b : Bool) : Json
  | num (n : Int) : Json
  | str (s : String) : Json
  | arr (xs : List Json) : Json
  | obj (fields : List (String × Json)) : Json

/-- models/ir.py: `ProtectionLevel(str, Enum)`. -/
inductive ProtectionLevel where
  | DONT_SAVE_SENSITIVE
  | ENCRYPT_SENSITIVE_WITH_PASSWORD
  | ENCRYPT_SENSITIVE_WITH_USER_KEY
  | ENCRYPT_ALL_WITH_PASSWORD
  | ENCRYPT_ALL_WITH_USER_KEY
  deriving DecidableEq, Repr

/-- The `.value` string of a `ProtectionLevel` member. -/
def ProtectionLevel.value : ProtectionLevel → String
  | .DONT_SAVE_SENSITIVE => "DontSaveSensitive"
  | .ENCRYPT_SENSITIVE_WITH_PASSWORD => "EncryptSensitiveWithPassword"
  | .ENCRYPT_SENSITIVE_WITH_USER_KEY => "EncryptSensitiveWithUserKey"
  | .ENCRYPT_ALL_WITH_PASSWORD => "EncryptAllWithPassword"
  | .ENCRYPT_ALL_WITH_USER_KEY => "EncryptAllWithUserKey"

/-- Validation of a raw string against the `ProtectionLevel` enum. -/
def ProtectionLevel.fromValue (s : String) : Option ProtectionLevel :=
  if s = "DontSaveSensitive" then some .DONT_SAVE_SENSITIVE
  else if s = "EncryptSensitiveWithPassword" then some .ENCRYPT_SENSITIVE_WITH_PASSWORD
  else if s = "EncryptSensitiveWithUserKey" then some .ENCRYPT_SENSITIVE_WITH_USER_KEY
  else if s = "EncryptAllWithPassword" then some .ENCRYPT_ALL_WITH_PASSWORD
  else if s = "EncryptAllWithUserKey" then some .ENCRYPT_ALL_WITH_USER_KEY
  else none

/-- models/ir.py: `ConnectionType(str, Enum)`. -/
inductive ConnectionType where
  | OLEDB | ADONET | FLATFILE | SNOWFLAKE | FILE | HTTP | FTP | SMTP
  deriving DecidableEq, Repr

def ConnectionType.value : ConnectionType → String
  | .OLEDB => "OLEDB"
  | .ADONET => "ADO.NET"
  | .FLATFILE => "FLATFILE"
  | .SNOWFLAKE => "SNOWFLAKE"
  | .FILE => "FILE"
  | .HTTP => "HTTP"
  | .FTP => "FTP"
  | .SMTP => "SMTP"

def ConnectionType.fromValue (s : String) : Option ConnectionType :=
  if s = "OLEDB" then some .OLEDB
  else if s = "ADO.NET" then some .ADONET
  else if s = "FLATFILE" then some .FLATFILE
  else if s = "SNOWFLAKE" then some .SNOWFLAKE
  else if s = "FILE" then some .FILE
  else if s = "HTTP" then some .HTTP
  else if s = "FTP" then some .FTP
  else if s = "SMTP" then some .SMTP
  else none

/-- models/ir.py: `ExecutableType(str, Enum)`. -/
inductive ExecutableType where
  | EXECUTE_SQL | DATA_FLOW | SCRIPT_TASK | SEQUENCE_CONTAINER
  | FOREACH_LOOP | FOR_LOOP | BULK_INSERT | EXECUTE_PACKAGE
  | FILE_SYSTEM | FTP | SEND_MAIL | WEB_SERVICE
  deriving DecidableEq, Repr

def ExecutableType.value : ExecutableType → String
  | .EXECUTE_SQL => "ExecuteSQL"
  | .DATA_FLOW => "DataFlow"
  | .SCRIPT_TASK => "ScriptTask"
  | .SEQUENCE_CONTAINER => "SequenceContainer"
  | .FOREACH_LOOP => "ForEachLoop"
  | .FOR_LOOP => "ForLoop"
  | .BULK_INSERT => "BulkInsert"
  | .EXECUTE_PACKAGE => "ExecutePackage"
  | .FILE_SYSTEM => "FileSystem"
  | .FTP => "FTP"
  | .SEND_MAIL => "SendMail"
  | .WEB_SERVICE => "WebService"

def ExecutableType.fromValue (s : String) : Option ExecutableType :=
  if s = "ExecuteSQL" then some .EXECUTE_SQL
  else if s = "DataFlow" then some .DATA_FLOW
  else if s = "ScriptTask" then some .SCRIPT_TASK
  else if s = "SequenceContainer" then some .SEQUENCE_CONTAINER
  else if s = "ForEachLoop" then some .FOREACH_LOOP
  else if s = "ForLoop" then some .FOR_LOOP
  else if s = "BulkInsert" then some .BULK_INSERT
  else if s = "ExecutePackage" then some .EXECUTE_PACKAGE
  else if s = "FileSystem" then some .FILE_SYSTEM
  else if s = "FTP" then some .FTP
  else if s = "SendMail" then some .SEND_MAIL
  else if s = "WebService" then some .WEB_SERVICE
  else none

/-- Python `str(member)` of the (str, Enum) class renders as
"ExecutableType.MEMBER_NAME"; in particular it never equals a bare value
string such as "Unknown" or "DataFlow" (relevant to to_ir.py comparisons). -/
def ExecutableType.pyStr : ExecutableType → String
  | .EXECUTE_SQL => "ExecutableType.EXECUTE_SQL"
  | .DATA_FLOW => "ExecutableType.DATA_FLOW"
  | .SCRIPT_TASK => "ExecutableType.SCRIPT_TASK"
  | .SEQUENCE_CONTAINER => "ExecutableType.SEQUENCE_CONTAINER"
  | .FOREACH_LOOP => "ExecutableType.FOREACH_LOOP"
  | .FOR_LOOP => "ExecutableType.FOR_LOOP"
  | .BULK_INSERT => "ExecutableType.BULK_INSERT"
  | .EXECUTE_PACKAGE => "ExecutableType.EXECUTE_PACKAGE"
  | .FILE_SYSTEM => "ExecutableType.FILE_SYSTEM"
  | .FTP => "ExecutableType.FTP"
  | .SEND_MAIL => "ExecutableType.SEND_MAIL"
  | .WEB_SERVICE => "ExecutableType.WEB_SERVICE"

/-- models/ir.py: `ComponentType(str, Enum)`. -/
inductive ComponentType where
  | OLEDB_SOURCE | ADONET_SOURCE | FLAT_FILE_SOURCE | SCRIPT_SOURCE
  | OLEDB_DESTINATION | ADONET_DESTINATION | FLAT_FILE_DESTINATION | SNOWFLAKE_DEST
  | DERIVED_COLUMN | LOOKUP | CONDITIONAL_SPLIT | UNION_ALL | SORT
  | AGGREGATE | MERGE_JOIN | MULTICAST | ROW_COUNT | SCRIPT_COMPONENT
  deriving DecidableEq, Repr

def ComponentType.value : ComponentType → String
  | .OLEDB_SOURCE => "OLEDBSource"
  | .ADONET_SOURCE => "ADONETSource"
  | .FLAT_FILE_SOURCE => "FlatFileSource"
  | .SCRIPT_SOURCE => "ScriptSource"
  | .OLEDB_DESTINATION => "OLEDBDestination"
  | .ADONET_DESTINATION => "ADONETDestination"
  | .FLAT_FILE_DESTINATION => "FlatFileDestination"
  | .SNOWFLAKE_DEST => "SnowflakeDest"
  | .DERIVED_COLUMN => "DerivedColumn"
  | .LOOKUP => "Lookup"
  | .CONDITIONAL_SPLIT => "ConditionalSplit"
  | .UNION_ALL => "UnionAll"
  | .SORT => "Sort"
  | .AGGREGATE => "Aggregate"
  | .MERGE_JOIN => "MergeJoin"
  | .MULTICAST => "Multicast"
  | .ROW_COUNT => "RowCount"
  | .SCRIPT_COMPONENT => "ScriptComponent"

def ComponentType.fromValue (s : String) : Option ComponentType :=
  if s = "OLEDBSource" then some .OLEDB_SOURCE
  else if s = "ADONETSource" then some .ADONET_SOURCE
  else if s = "FlatFileSource" then some .FLAT_FILE_SOURCE
  else if s = "ScriptSource" then some .SCRIPT_SOURCE
  else if s = "OLEDBDestination" then some .OLEDB_DESTINATION
  else if s = "ADONETDestination" then some .ADONET_DESTINATION
  else if s = "FlatFileDestination" then some .FLAT_FILE_DESTINATION
  else if s = "SnowflakeDest" then some .SNOWFLAKE_DEST
  else if s = "DerivedColumn" then some .DERIVED_COLUMN
  else if s = "Lookup" then some .LOOKUP
  else if s = "ConditionalSplit" then some .CONDITIONAL_SPLIT
  else if s = "UnionAll" then some .UNION_ALL
  else if s = "Sort" then some .SORT
  else if s = "Aggregate" then some .AGGREGATE
  else if s = "MergeJoin" then some .MERGE_JOIN
  else if s = "Multicast" then some .MULTICAST
  else if s = "RowCount" then some .ROW_COUNT
  else if s = "ScriptComponent" then some .SCRIPT_COMPONENT
  else none

/-- models/ir.py: `PrecedenceCondition(str, Enum)`. -/
inductive PrecedenceCondition where
  | SUCCESS | FAILURE | COMPLETION | EXPRESSION
  deriving DecidableEq, Repr

def PrecedenceCondition.value : PrecedenceCondition → String
  | .SUCCESS => "Success"
  | .FAILURE => "Failure"
  | .COMPLETION => "Completion"
  | .EXPRESSION => "Expression"

def PrecedenceCondition.fromValue (s : String) : Option PrecedenceCondition :=
  if s = "Success" then some .SUCCESS
  else if s = "Failure" then some .FAILURE
  else if s = "Completion" then some .COMPLETION
  else if s = "Expression" then some .EXPRESSION
  else none

/-- models/ir.py: `SqlDialect(str, Enum)`. -/
inductive SqlDialect where
  | TSQL | ANSI | SNOWFLAKE
  deriving DecidableEq, Repr

def SqlDialect.value : SqlDialect → String
  | .TSQL => "tsql"
  | .ANSI => "ansi"
  | .SNOWFLAKE => "snowflake"

def SqlDialect.fromValue (s : String) : Option SqlDialect :=
  if s = "tsql" then some .TSQL
  else if s = "ansi" then some .ANSI
  else if s = "snowflake" then some .SNOWFLAKE
  else none

/-- models/ir.py: `Parameter`.  `value: Optional[Any]` is a JSON value
(Json.null standing for Python None). -/
structure Parameter where
  name : String
  type : String
  value : Json := Json.null
  description : Option String := none

/-- models/ir.py: `Variable`. -/
structure Variable where
  name : String
  type : String
  value : Json := Json.null
  description : Option String := none
  scope : String := "Package"

/-- models/ir.py: `ConnectionManager`.  `properties: Dict[str, Any]` is an
ordered association list (Python dicts preserve insertion order). -/
structure ConnectionManager where
  id : String
  name : String
  type : ConnectionType
  properties : List (String × Json) := []
  sensitive : Bool := false
  description : Option String := none

/-- models/ir.py: `DataFlowComponent`. -/
structure DataFlowComponent where
  id : String
  component_type : ComponentType
  name : String
  sql : Option String := none
  table : Option String := none
  expression : Option String := none
  properties : List (String × Json) := []
  inputs : List String := []
  outputs : List String := []
  join_on : List String := []
  ref : Option String := none
  mode : Option String := none

/-- models/ir.py: `Executable`. -/
structure Executable where
  id : String
  type : ExecutableType
  object_name : String
  dialect : Option SqlDialect := none
  sql : Option String := none
  parameter_refs : List String := []
  variable_refs : List String := []
  components : List DataFlowComponent := []
  properties : List (String × Json) := []
  connection_ref : Option String := none
  delay_validation : Bool := false
  disabled : Bool := false

/-- models/ir.py: `PrecedenceEdge`. -/
structure PrecedenceEdge where
  from_task : String
  to_task : String
  condition : PrecedenceCondition
  expression : Option String := none
  logical_and : Bool := true
  deriving DecidableEq, Repr

/-- models/ir.py: `Expression` (property expression override). -/
structure Expression where
  scope : String
  property : String
  expression : String
  deriving DecidableEq, Repr

/-- models/ir.py: `IRPackage`.  The Python field `variables` is spelled
`variables_` here because `variables` is reserved in Lean. -/
structure IRPackage where
  package_name : String
  protection_level : ProtectionLevel := ProtectionLevel.DONT_SAVE_SENSITIVE
  parameters : List Parameter := []
  variables_ : List Variable := []
  connection_managers : List ConnectionManager := []
  executables : List Executable := []
  edges : List PrecedenceEdge := []
  expressions : List Expression := []
  version_build : Option String := none
  version_comments : Option String := none
  creator_name : Option String := none
  creation_date : Option String := none

/-- models/ir.py `IRPackage.is_transformation_only`: True iff no executable
has an ingestion type and no data-flow component is a flat-file
source/destination (early return False on the first offender). -/
def IRPackage.is_transformation_only (p : IRPackage) : Bool :=
  p.executables.all fun exe =>
    !(exe.type = ExecutableType.BULK_INSERT ||
      exe.type = ExecutableType.FILE_SYSTEM ||
      exe.type = ExecutableType.FTP ||
      exe.type = ExecutableType.WEB_SERVICE) &&
    (if exe.type = ExecutableType.DATA_FLOW then
      exe.components.all fun comp =>
        !(comp.component_type = ComponentType.FLAT_FILE_SOURCE ||
          comp.component_type = ComponentType.FLAT_FILE_DESTINATION)
    else true)

/-- models/ir.py `IRPackage.get_data_flows`. -/
def IRPackage.get_data_flows (p : IRPackage) : List Executable :=
  p.executables.filter fun exe => exe.type = ExecutableType.DATA_FLOW

/-- models/ir.py `IRPackage.get_sql_tasks`. -/
def IRPackage.get_sql_tasks (p : IRPackage) : List Executable :=
  p.executables.filter fun exe => exe.type = ExecutableType.EXECUTE_SQL

/-! ## parser/secure.py: SSISSecurityHandler -/

/-- The redaction sentinel used throughout the parser. -/
def REDACTED : String := "[REDACTED]"

/-- Python `sub in s` substring test. -/
def strContains (s sub : String) : Bool := decide (sub.toList <:+: s.toList)

/-- Python `str.lower` (the keys and substrings compared in this code are
ASCII, where `Char.toLower` agrees with Python). -/
def py_lower (s : String) : String := String.mk (s.toList.map Char.toLower)

/-- secure.py: the handler's `sensitive_properties` set. -/
def sensitive_properties : List String :=
  ["password", "connectionstring", "userpassword", "servername",
   "userid", "username", "initialcatalog", "database",
   "sqlstatement", "commandtext"]

/-- secure.py `_is_sensitive_property`: case-insensitive membership in the
sensitive-key set. -/
def is_sensitive_property (property_name : String) : Bool :=
  sensitive_properties.contains (py_lower property_name)

/-- secure.py `_redact_sensitive_properties`: replace every sensitive-keyed
value with the redaction sentinel. -/
def redact_sensitive_properties (properties : List (String × Json)) : List (String × Json) :=
  properties.map fun kv =>
    if is_sensitive_property kv.1 then (kv.1, Json.str REDACTED) else kv

/-- Python exceptions raised by the security handler. -/
inductive PyError where
  | valueError (msg : String)
  | notImplementedError (msg : String)
  deriving DecidableEq, Repr

/-- secure.py `_decrypt_sensitive_properties`: placeholder that always falls
back to redaction. -/
def decrypt_sensitive_properties (properties : List (String × Json))
    (_protection_level : ProtectionLevel) : List (String × Json) :=
  redact_sensitive_properties properties

/-- secure.py `_decrypt_all_properties`: placeholder that always raises
NotImplementedError. -/
def decrypt_all_properties (_properties : List (String × Json))
    (_protection_level : ProtectionLevel) : Except PyError (List (String × Json)) :=
  Except.error (PyError.notImplementedError
    "Full package decryption requires SSIS runtime or specialized tools")

/-- Python truthiness of the handler's `self.password` (None or the empty
string are falsy). -/
def password_falsy : Option String → Bool
  | none => true
  | some s => s.isEmpty

/-- secure.py `handle_protection_level`.  The trailing `return properties`
of the Python function is unreachable for enum-typed protection levels
(every member is covered by the if/elif chain). -/
def handle_protection_level (password : Option String) (protection_level : ProtectionLevel)
    (properties : List (String × Json)) : Except PyError (List (String × Json)) :=
  match protection_level with
  | ProtectionLevel.DONT_SAVE_SENSITIVE =>
      Except.ok (redact_sensitive_properties properties)
  | ProtectionLevel.ENCRYPT_SENSITIVE_WITH_PASSWORD =>
      if password_falsy password then Except.ok (redact_sensitive_properties properties)
      else Except.ok (decrypt_sensitive_properties properties protection_level)
  | ProtectionLevel.ENCRYPT_SENSITIVE_WITH_USER_KEY =>
      Except.ok (decrypt_sensitive_properties properties protection_level)
  | ProtectionLevel.ENCRYPT_ALL_WITH_PASSWORD =>
      if password_falsy password then
        Except.error (PyError.valueError "Password required for encrypted package")
      else decrypt_all_properties properties protection_level
  | ProtectionLevel.ENCRYPT_ALL_WITH_USER_KEY =>
      decrypt_all_properties properties protection_level

/-- Structured stand-ins for the f-string warning messages produced by
secure.py `validate_security_compliance` and
precedence_parser.py `validate_constraints`. -/
inductive WarningMsg where
  | redactedConnections (count : Nat)
  | hardcodedCredentials (taskName : String)
  | dontSaveSensitiveNotice
  | unknownSourceTask (taskId : String)
  | unknownTargetTask (taskId : String)
  | cycleDetected
  | isolatedTaskNotice (taskIds : List String)
  deriving DecidableEq, Repr

mutual

/-- Python check whether the sentinel occurs in str(v) of a JSON value: the
rendering of a container contains the sentinel iff some nested string (or
dict key) contains it. -/
def jsonContainsRedacted : Json → Bool
  | Json.null => false
  | Json.bool _ => false
  | Json.num _ => false
  | Json.str s => strContains s REDACTED
  | Json.arr xs => jsonListContainsRedacted xs
  | Json.obj fs => jsonFieldsContainRedacted fs

/-- List helper for `jsonContainsRedacted`. -/
def jsonListContainsRedacted : List Json → Bool
  | [] => false
  | x :: xs => jsonContainsRedacted x || jsonListContainsRedacted xs

/-- Field helper for `jsonContainsRedacted`. -/
def jsonFieldsContainRedacted : List (String × Json) → Bool
  | [] => false
  | (k, v) :: fs =>
      strContains k REDACTED || jsonContainsRedacted v || jsonFieldsContainRedacted fs

end

/-- secure.py `validate_security_compliance`, applied to the IR package
(the source applies it to `model_dump()` of the same data). -/
def validate_security_compliance (p : IRPackage) : List WarningMsg :=
  let redacted_connections := p.connection_managers.filter fun c =>
    c.properties.any fun kv => jsonContainsRedacted kv.2
  (if redacted_connections.length > 0 then
    [WarningMsg.redactedConnections redacted_connections.length] else []) ++
  (p.executables.filterMap fun exe =>
    match exe.sql with
    | none => none
    | some sql =>
      if !sql.isEmpty &&
         (strContains (py_lower sql) "password=" || strContains (py_lower sql) "pwd=" ||
          strContains (py_lower sql) "user id=") then
        some (WarningMsg.hardcodedCredentials exe.object_name)
      else none) ++
  (if p.protection_level = ProtectionLevel.DONT_SAVE_SENSITIVE then
    [WarningMsg.dontSaveSensitiveNotice] else [])

/-! ## parser/to_ir.py: DTSXToIRConverter -/

/-- Python `str(member)` of `ConnectionType(str, Enum)` renders as
"ConnectionType.MEMBER_NAME". -/
def ConnectionType.pyStr : ConnectionType → String
  | ConnectionType.OLEDB => "ConnectionType.OLEDB"
  | ConnectionType.ADONET => "ConnectionType.ADONET"
  | ConnectionType.FLATFILE => "ConnectionType.FLATFILE"
  | ConnectionType.SNOWFLAKE => "ConnectionType.SNOWFLAKE"
  | ConnectionType.FILE => "ConnectionType.FILE"
  | ConnectionType.HTTP => "ConnectionType.HTTP"
  | ConnectionType.FTP => "ConnectionType.FTP"
  | ConnectionType.SMTP => "ConnectionType.SMTP"

/-- Structured stand-ins for the manual-review f-strings of
to_ir.py `_identify_manual_review_items`. -/
inductive ReviewMsg where
  | scriptTasks (count : Nat)
  | complexExpression (scope : String) (propertyName : String)
  | limitedSupportConnections (count : Nat)
  | encryptedPackageNotice
  | loopContainers (count : Nat)
  deriving DecidableEq, Repr

/-- to_ir.py `_identify_manual_review_items`.  Note: the source compares
`str(exe.type)` / `str(cm.type)` (which render as "ExecutableType.X" /
"ConnectionType.X") against bare value strings, so those filters never
match; `str(ir_package.protection_level)` is the bare value string because
IRPackage stores enum values (use_enum_values). -/
def identify_manual_review_items (p : IRPackage) : List ReviewMsg :=
  let script_tasks := p.executables.filter fun exe => exe.type.pyStr = "ScriptTask"
  let unsupported_conns := p.connection_managers.filter fun cm =>
    cm.type.pyStr = "FTP" || cm.type.pyStr = "HTTP" || cm.type.pyStr = "SMTP"
  let loop_tasks := p.executables.filter fun exe =>
    exe.type.pyStr = "ForEachLoop" || exe.type.pyStr = "ForLoop"
  (if script_tasks.length > 0 then [ReviewMsg.scriptTasks script_tasks.length] else []) ++
  (p.expressions.filterMap fun expr =>
    if expr.expression.length > 100 then
      some (ReviewMsg.complexExpression expr.scope expr.property)
    else none) ++
  (if unsupported_conns.length > 0 then
    [ReviewMsg.limitedSupportConnections unsupported_conns.length] else []) ++
  (if p.protection_level.value ≠ "DontSaveSensitive" then
    [ReviewMsg.encryptedPackageNotice] else []) ++
  (if loop_tasks.length > 0 then [ReviewMsg.loopContainers loop_tasks.length] else [])

/-- models/ir.py: `MigrationReport` (string lists whose entries are
f-strings are modelled with structured message types). -/
structure MigrationReport where
  package_name : String
  source_file : String
  migration_mode : String
  total_executables : Nat
  supported_executables : Nat
  unsupported_executables : List String := []
  encrypted_properties : List String := []
  manual_review_items : List ReviewMsg := []
  sql_dialect_conversions : List String := []
  generated_files : List String := []
  warnings : List WarningMsg := []
  errors : List PyError := []
  success : Bool := true

/-! ## parser/precedence_parser.py: PrecedenceParser -/

/-- Python truthiness of an optional string attribute (absent or empty is
falsy). -/
def optStrFalsy : Option String → Bool
  | none => true
  | some s => s.isEmpty

/-- A raw `DTS:PrecedenceConstraint` element: its From/To/Value/LogicalAnd
attributes, plus the expression payload that `_extract_expression` would
locate through its fallback chain (abstracting the XML lookups). -/
structure RawConstraint where
  fromTask : Option String := none
  toTask : Option String := none
  value : Option String := none
  logicalAnd : Option String := none
  expressionPayload : Option String := none
  deriving DecidableEq, Repr

/-- precedence_parser.py `_map_precedence_condition`: a falsy value defaults
to Success; otherwise a fixed mapping over symbolic strings and integer
codes, with unmapped values yielding none. -/
def map_precedence_condition (value : Option String) : Option PrecedenceCondition :=
  if optStrFalsy value then some PrecedenceCondition.SUCCESS
  else
    match value with
    | none => some PrecedenceCondition.SUCCESS
    | some v =>
      if v = "Success" then some PrecedenceCondition.SUCCESS
      else if v = "Failure" then some PrecedenceCondition.FAILURE
      else if v = "Completion" then some PrecedenceCondition.COMPLETION
      else if v = "Expression" then some PrecedenceCondition.EXPRESSION
      else if v = "0" then some PrecedenceCondition.SUCCESS
      else if v = "1" then some PrecedenceCondition.FAILURE
      else if v = "2" then some PrecedenceCondition.COMPLETION
      else if v = "3" then some PrecedenceCondition.EXPRESSION
      else none

/-- precedence_parser.py `_parse_single_constraint`: returns none when From
or To is missing/empty or the condition value is unmapped. -/
def parse_single_constraint (c : RawConstraint) : Option PrecedenceEdge :=
  if optStrFalsy c.fromTask || optStrFalsy c.toTask then none
  else
    match map_precedence_condition c.value with
    | none => none
    | some condition =>
      some { from_task := c.fromTask.getD ""
             to_task := c.toTask.getD ""
             condition := condition
             expression :=
               if condition = PrecedenceCondition.EXPRESSION then c.expressionPayload else none
             logical_and := py_lower (c.logicalAnd.getD "True") = "true" }

/-- precedence_parser.py `parse_precedence_constraints`: collect the edges
of the constraints that parse. -/
def parse_precedence_constraints (constraints : List RawConstraint) : List PrecedenceEdge :=
  constraints.filterMap parse_single_constraint

/-- precedence_parser.py `build_dependency_graph`, as the lookup function
`graph.get(node, [])` of the adjacency dict it builds. -/
def graph_children (edges : List PrecedenceEdge) (node : String) : List String :=
  (edges.filter fun e => e.from_task = node).map fun e => e.to_task

/-- precedence_parser.py `validate_constraints`'s inner `has_cycle`:
depth-first search threading the (mutated) visited and recursion-stack
sets; an early True return leaves the stack unpopped, a False return pops
the node.  The fuel argument bounds the recursion depth; every recursive
call is on an unvisited node and marks it visited first, so any fuel larger
than the number of distinct node names is never exhausted. -/
def has_cycle : Nat → (String → List String) → String → List String → List String →
    Bool × List String × List String
  | 0, _, _, visited, rec_stack => (false, visited, rec_stack)
  | fuel+1, g, node, visited, rec_stack =>
    let visited := if node ∈ visited then visited else node :: visited
    let rec_stack := if node ∈ rec_stack then rec_stack else node :: rec_stack
    let r := (g node).foldl
      (fun (acc : Bool × List String × List String) neighbor =>
        if acc.1 then acc
        else if neighbor ∉ acc.2.1 then has_cycle fuel g neighbor acc.2.1 acc.2.2
        else if neighbor ∈ acc.2.2 then (true, acc.2.1, acc.2.2)
        else acc)
      (false, visited, rec_stack)
    if r.1 then r
    else (false, r.2.1, r.2.2.erase node)

/-- The top-level loop of the cycle check in `validate_constraints`: scan
the task ids, skipping visited ones, and stop at the first cycle found. -/
def cycle_scan (g : String → List String) (fuel : Nat) :
    List String → List String × List String → Bool
  | [], _ => false
  | t :: ts, st =>
    if t ∈ st.1 then cycle_scan g fuel ts st
    else
      let r := has_cycle fuel g t st.1 st.2
      if r.1 then true else cycle_scan g fuel ts r.2

/-- precedence_parser.py `validate_constraints`: unknown-reference issues,
at most one cycle warning (the loop breaks after the first), and an
isolated-task notice. -/
def validate_constraints (edges : List PrecedenceEdge) (all_task_ids : List String) :
    List WarningMsg :=
  let unknown_ref_issues := edges.flatMap fun e =>
    (if e.from_task ∈ all_task_ids then [] else [WarningMsg.unknownSourceTask e.from_task]) ++
    (if e.to_task ∈ all_task_ids then [] else [WarningMsg.unknownTargetTask e.to_task])
  let g := graph_children edges
  let fuel := all_task_ids.length + 2 * edges.length + 1
  let cycle_issues :=
    if cycle_scan g fuel all_task_ids ([], []) then [WarningMsg.cycleDetected] else []
  let constrained := edges.flatMap fun e => [e.from_task, e.to_task]
  let isolated_tasks := all_task_ids.filter fun t => decide (t ∉ constrained)
  unknown_ref_issues ++ cycle_issues ++
    (if isolated_tasks.length > 0 then [WarningMsg.isolatedTaskNotice isolated_tasks] else [])

/-! ## parser/dataflow_parser.py: path parsing and component wiring -/

/-- A raw `Pipeline:path` element: its startId, endId and id attributes. -/
structure RawPath where
  startId : Option String := none
  endId : Option String := none
  pathId : Option String := none
  deriving DecidableEq, Repr

/-- An entry of the parser's `path_connections` list.  The Python dict keys
"start"/"end" become `start`/`end_` (`end` is reserved in Lean). -/
structure PathConn where
  start : String
  end_ : String
  path_id : String
  deriving DecidableEq, Repr

/-- dataflow_parser.py `_parse_paths`: keep the paths whose startId and
endId are truthy; a missing id attribute defaults to the empty string. -/
def parse_paths (path_elements : List RawPath) : List PathConn :=
  path_elements.filterMap fun p =>
    if !optStrFalsy p.startId && !optStrFalsy p.endId then
      some { start := p.startId.getD "", end_ := p.endId.getD "", path_id := p.pathId.getD "" }
    else none

/-- Update the last element of the list satisfying `p` (the Python dict
comprehension `comp_by_id` keeps the last component per id, and mutations
through it touch exactly that element). -/
def update_last_matching (p : DataFlowComponent → Bool)
    (f : DataFlowComponent → DataFlowComponent) :
    List DataFlowComponent → List DataFlowComponent
  | [] => []
  | c :: cs =>
    if cs.any p then c :: update_last_matching p f cs
    else if p c then f c :: cs
    else c :: cs

/-- dataflow_parser.py `_wire_components`: append the path id to the start
component's outputs unless already present. -/
def append_output_if_absent (path_id : String) (c : DataFlowComponent) : DataFlowComponent :=
  if path_id ∈ c.outputs then c else { c with outputs := c.outputs ++ [path_id] }

/-- dataflow_parser.py `_wire_components`: append the path id to the end
component's inputs unless already present. -/
def append_input_if_absent (path_id : String) (c : DataFlowComponent) : DataFlowComponent :=
  if path_id ∈ c.inputs then c else { c with inputs := c.inputs ++ [path_id] }

/-- One iteration of the `_wire_components` loop: if both endpoints resolve
to components, wire the start component's outputs then the end component's
inputs. -/
def wire_step (components : List DataFlowComponent) (path : PathConn) :
    List DataFlowComponent :=
  if (components.any fun c => c.id = path.start) && (components.any fun c => c.id = path.end_) then
    update_last_matching (fun c => c.id = path.end_) (append_input_if_absent path.path_id)
      (update_last_matching (fun c => c.id = path.start)
        (append_output_if_absent path.path_id) components)
  else components

/-- dataflow_parser.py `_wire_components`: process every parsed path
connection in order. -/
def wire_components (components : List DataFlowComponent) (paths : List PathConn) :
    List DataFlowComponent :=
  paths.foldl wire_step components

/-! ## parser/to_ir.py `convert_file` -/

/-- The data the DTSXReader and sub-parsers deliver to `convert_file`:
package metadata (`stem` is the file stem used for report and fallback
names), the extracted collections, and the parsed edges/expressions.
The XML layer itself is abstracted. -/
structure ReaderData where
  stem : String
  source_file : String
  package_name : String
  protection_level : ProtectionLevel
  parameters : List Parameter := []
  variables_ : List Variable := []
  connection_managers : List ConnectionManager := []
  executables : List Executable := []
  edges : List PrecedenceEdge := []
  expressions : List Expression := []
  version_build : Option String := none
  version_comments : Option String := none
  creator_name : Option String := none
  creation_date : Option String := none

/-- The securing loop of `convert_file` (lines 93-101): apply
`handle_protection_level` to every connection manager in order; the first
exception aborts the whole conversion. -/
def secure_connections (password : Option String) (pl : ProtectionLevel) :
    List ConnectionManager → Except PyError (List ConnectionManager)
  | [] => Except.ok []
  | cm :: rest =>
    match handle_protection_level password pl cm.properties with
    | Except.error e => Except.error e
    | Except.ok props =>
      match secure_connections password pl rest with
      | Except.error e => Except.error e
      | Except.ok rest2 => Except.ok ({ cm with properties := props } :: rest2)

/-- to_ir.py `convert_file`: secure the connection managers, assemble the
IR package and the migration report; on an exception, return the minimal
package (name only) and a failure report. -/
def convert_file (password : Option String) (d : ReaderData) : IRPackage × MigrationReport :=
  match secure_connections password d.protection_level d.connection_managers with
  | Except.error e =>
    ({ package_name := d.stem },
     { package_name := d.stem, source_file := d.source_file, migration_mode := "airflow",
       total_executables := 0, supported_executables := 0, errors := [e], success := false })
  | Except.ok secured =>
    let ir_package : IRPackage :=
      { package_name := d.package_name, protection_level := d.protection_level,
        parameters := d.parameters, variables_ := d.variables_,
        connection_managers := secured, executables := d.executables,
        edges := d.edges, expressions := d.expressions,
        version_build := d.version_build, version_comments := d.version_comments,
        creator_name := d.creator_name, creation_date := d.creation_date }
    let supported := (d.executables.filter fun exe => exe.type.value ≠ "").length
    let unsupported := (d.executables.filter fun exe =>
        exe.type.value = "" || exe.type.pyStr = "Unknown").map fun exe => exe.object_name
    let encrypted := secured.flatMap fun cm =>
      (cm.properties.filter fun kv =>
        match kv.2 with
        | Json.str s => s = REDACTED
        | _ => false).map fun kv => cm.name ++ "." ++ kv.1
    let mode :=
      if ir_package.is_transformation_only then "dbt"
      else if ir_package.get_data_flows.length > 0 && ir_package.get_sql_tasks.length > 0 then
        "mixed"
      else "airflow"
    let sec_warnings := validate_security_compliance ir_package
    let constraint_issues := validate_constraints d.edges (d.executables.map fun exe => exe.id)
    (ir_package,
     { package_name := d.stem, source_file := d.source_file, migration_mode := mode,
       total_executables := d.executables.length, supported_executables := supported,
       unsupported_executables := unsupported, encrypted_properties := encrypted,
       manual_review_items := identify_manual_review_items ir_package,
       warnings := sec_warnings ++ constraint_issues,
       errors := [], success := true })

/-! ## parser/project_parser.py: project structure analysis -/

/-- models/ir.py: `PackageDependency`. -/
structure PackageDependency where
  parent_package : String
  child_package : String
  task_name : String
  task_id : String
  precedence_constraint : Option PrecedenceCondition := none
  condition_expression : Option String := none
  deriving DecidableEq, Repr

/-- models/ir.py: `PackageReference`. -/
structure PackageReference where
  name : String
  file_path : String
  relative_path : String
  entry_point : Bool := false
  transformation_only : Bool := false
  deriving DecidableEq, Repr

/-- An entry of the analysis's `execution_chains` list. -/
structure ChainInfo where
  entry_point : String
  chain : List String
  length : Nat
  deriving DecidableEq, Repr

/-- Structured stand-ins for the recommendation strings of
`analyze_project_structure`. -/
inductive RecMsg where
  | multipleEntryPoints
  | isolatedPackagesFound (names : List String)
  | noDependencies
  deriving DecidableEq, Repr

/-- The analysis dict returned by `analyze_project_structure`
(`circular_dependencies` is never filled by the source). -/
structure ProjectAnalysis where
  entry_points : List String
  execution_chains : List ChainInfo
  isolated_packages : List String
  circular_dependencies : List String
  recommendations : List RecMsg
  deriving DecidableEq, Repr

/-- The dependency-graph lookup `dependency_graph.get(node, [])` built by
`analyze_project_structure`: keys are the package names, and each key maps
to the child packages of the dependencies whose parent is that key. -/
def dep_children (packages : List PackageReference) (dependencies : List PackageDependency)
    (node : String) : List String :=
  if packages.any fun p => p.name = node then
    (dependencies.filter fun dep => dep.parent_package = node).map fun dep => dep.child_package
  else []

/-- project_parser.py `_trace_execution_chain`, with an explicit fuel
argument standing for the unbounded Python recursion: return [] when the
start package was already visited, else the start followed by the traces of
its children, each child receiving a copy of the visited set extended with
the start. -/
def trace_execution_chain (packages : List PackageReference)
    (dependencies : List PackageDependency) :
    Nat → String → List String → List String
  | 0, _, _ => []
  | fuel+1, start_package, visited =>
    if start_package ∈ visited then []
    else
      (dep_children packages dependencies start_package).foldl
        (fun chain child =>
          chain ++ trace_execution_chain packages dependencies fuel child
            (start_package :: visited))
        [start_package]

/-- The node names any recursion of `trace_execution_chain` can reach:
package names (the graph keys) and dependency children. -/
def project_nodes (packages : List PackageReference)
    (dependencies : List PackageDependency) : Finset String :=
  (packages.map (fun p => p.name) ++ dependencies.map fun d => d.child_package).toFinset

/-- Canonical fuel for `trace_execution_chain`: one more than the number of
distinct reachable node names. -/
def trace_fuel_bound (packages : List PackageReference)
    (dependencies : List PackageDependency) : Nat :=
  (project_nodes packages dependencies).card + 1

/-- Python dict-key order: first occurrence of each name. -/
def dict_keys (names : List String) : List String :=
  names.foldl (fun acc n => if n ∈ acc then acc else acc ++ [n]) []

/-- project_parser.py `analyze_project_structure`: entry points, isolated
packages, execution chains and recommendations. -/
def analyze_project_structure (packages : List PackageReference)
    (dependencies : List PackageDependency) : ProjectAnalysis :=
  let executed_packages := dependencies.map fun d => d.child_package
  let entry_points :=
    (packages.filter fun p => decide (p.name ∉ executed_packages)).map fun p => p.name
  let isolated := (dict_keys (packages.map fun p => p.name)).filter fun name =>
    decide (name ∉ executed_packages) &&
    decide ((dep_children packages dependencies name).length = 0)
  let chains := entry_points.filterMap fun ep =>
    let chain := trace_execution_chain packages dependencies
      (trace_fuel_bound packages dependencies) ep []
    if chain.length > 1 then
      some { entry_point := ep, chain := chain, length := chain.length }
    else none
  { entry_points := entry_points
    execution_chains := chains
    isolated_packages := isolated
    circular_dependencies := []
    recommendations :=
      (if entry_points.length > 1 then [RecMsg.multipleEntryPoints] else []) ++
      (if isolated.length > 0 then [RecMsg.isolatedPackagesFound isolated] else []) ++
      (if dependencies.length = 0 then [RecMsg.noDependencies] else []) }

/-! ## Claim C3: transformation-only classification -/

/-- The spec's wording of the transformation-only classification: no
executable has an ingestion type tag, and no component of a data-flow
executable is a flat-file source or destination. -/
def transformation_only_spec (p : IRPackage) : Prop :=
  ∀ exe ∈ p.executables,
    (exe.type ≠ ExecutableType.BULK_INSERT ∧ exe.type ≠ ExecutableType.FILE_SYSTEM ∧
     exe.type ≠ ExecutableType.FTP ∧ exe.type ≠ ExecutableType.WEB_SERVICE) ∧
    (exe.type = ExecutableType.DATA_FLOW →
      ∀ comp ∈ exe.components,
        comp.component_type ≠ ComponentType.FLAT_FILE_SOURCE ∧
        comp.component_type ≠ ComponentType.FLAT_FILE_DESTINATION)

/-- Concrete OLEDB source component for the spec's example package. -/
def exOledbSource : DataFlowComponent :=
  { id := "comp1", component_type := ComponentType.OLEDB_SOURCE, name := "OLE Source" }

/-- Concrete OLEDB destination component for the spec's example package. -/
def exOledbDest : DataFlowComponent :=
  { id := "comp2", component_type := ComponentType.OLEDB_DESTINATION, name := "OLE Dest" }

/-- Concrete flat-file source component for the spec's example package. -/
def exFlatFileSource : DataFlowComponent :=
  { id := "comp3", component_type := ComponentType.FLAT_FILE_SOURCE, name := "Flat Source" }

/-- Example package whose only executable is a data flow with an OLEDB
source and an OLEDB destination. -/
def exOledbPackage : IRPackage :=
  { package_name := "P"
    executables := [{ id := "DF1", type := ExecutableType.DATA_FLOW, object_name := "DF",
                      components := [exOledbSource, exOledbDest] }] }

/-- The same example package with one flat-file source added. -/
def exFlatFilePackage : IRPackage :=
  { package_name := "P"
    executables := [{ id := "DF1", type := ExecutableType.DATA_FLOW, object_name := "DF",
                      components := [exOledbSource, exOledbDest, exFlatFileSource] }] }

/-- C3: `is_transformation_only` returns true iff no executable has an
ingestion type tag and no data-flow component is a flat-file source or
destination; the OLEDB-only example package is transformation-only and the
flat-file variant is not. -/
theorem C3_transformation_only_characterization :
    (∀ p : IRPackage, p.is_transformation_only = true ↔ transformation_only_spec p) ∧
    exOledbPackage.is_transformation_only = true ∧
    exFlatFilePackage.is_transformation_only = false := by
  refine ⟨fun p => ?_, by rfl, by rfl⟩
  unfold IRPackage.is_transformation_only transformation_only_spec
  rw [List.all_eq_true]
  refine forall₂_congr fun exe _ => ?_
  by_cases h : exe.type = ExecutableType.DATA_FLOW
  · simp [h, List.all_eq_true, not_or, and_assoc]
  · simp [h, not_or, and_assoc]

/-! ## Claim C8: precedence condition mapping and per-edge skipping -/

/-- C8: the condition mapping accepts both the symbolic strings and the
integer codes 0..3, and a constraint whose value maps to no condition is
the only edge omitted from the parse of a constraint list containing it. -/
theorem C8_condition_mapping_and_single_edge_skip :
    (map_precedence_condition (some "Success") = some PrecedenceCondition.SUCCESS ∧
     map_precedence_condition (some "Failure") = some PrecedenceCondition.FAILURE ∧
     map_precedence_condition (some "Completion") = some PrecedenceCondition.COMPLETION ∧
     map_precedence_condition (some "Expression") = some PrecedenceCondition.EXPRESSION ∧
     map_precedence_condition (some "0") = some PrecedenceCondition.SUCCESS ∧
     map_precedence_condition (some "1") = some PrecedenceCondition.FAILURE ∧
     map_precedence_condition (some "2") = some PrecedenceCondition.COMPLETION ∧
     map_precedence_condition (some "3") = some PrecedenceCondition.EXPRESSION) ∧
    ∀ (pre post : List RawConstraint) (c : RawConstraint),
      map_precedence_condition c.value = none →
      parse_precedence_constraints (pre ++ c :: post) =
        parse_precedence_constraints pre ++ parse_precedence_constraints post := by
  refine ⟨⟨rfl, rfl, rfl, rfl, rfl, rfl, rfl, rfl⟩, fun pre post c hc => ?_⟩
  have hsingle : parse_single_constraint c = none := by
    unfold parse_single_constraint
    split
    · rfl
    · rw [hc]
  simp [parse_precedence_constraints, List.filterMap_append, List.filterMap_cons, hsingle]

/-! ## Claim C4: one cycle warning at most -/

/-- Example cyclic edge set A→B→C→A. -/
def exCycEdges : List PrecedenceEdge :=
  [{ from_task := "A", to_task := "B", condition := PrecedenceCondition.SUCCESS },
   { from_task := "B", to_task := "C", condition := PrecedenceCondition.SUCCESS },
   { from_task := "C", to_task := "A", condition := PrecedenceCondition.SUCCESS }]

/-- Acyclic edge set of the same size. -/
def exAcycEdges : List PrecedenceEdge :=
  [{ from_task := "A", to_task := "B", condition := PrecedenceCondition.SUCCESS },
   { from_task := "B", to_task := "C", condition := PrecedenceCondition.SUCCESS },
   { from_task := "A", to_task := "C", condition := PrecedenceCondition.SUCCESS }]

/-- C4: `validate_constraints` emits the cycle warning at most once for any
edge and task list; the cyclic example yields exactly one cycle warning and
the acyclic example of the same size yields none. -/
theorem C4_cycle_reported_at_most_once :
    (∀ (edges : List PrecedenceEdge) (all_task_ids : List String),
       (validate_constraints edges all_task_ids).count WarningMsg.cycleDetected ≤ 1) ∧
    (validate_constraints exCycEdges ["A", "B", "C"]).count WarningMsg.cycleDetected = 1 ∧
    (validate_constraints exAcycEdges ["A", "B", "C"]).count WarningMsg.cycleDetected = 0 := by
  refine ⟨fun edges all_task_ids => ?_, by decide, by decide⟩
  unfold validate_constraints
  simp only [List.count_append]
  have h1 : (edges.flatMap fun e =>
      (if e.from_task ∈ all_task_ids then [] else [WarningMsg.unknownSourceTask e.from_task]) ++
      (if e.to_task ∈ all_task_ids then [] else [WarningMsg.unknownTargetTask e.to_task])).count
        WarningMsg.cycleDetected = 0 := by
    rw [List.count_eq_zero]
    intro hmem
    rw [List.mem_flatMap] at hmem
    obtain ⟨e, -, hmem⟩ := hmem
    rw [List.mem_append] at hmem
    rcases hmem with hmem | hmem <;> split at hmem <;> simp_all
  have h3 : ∀ isolated : List String,
      (if isolated.length > 0 then [WarningMsg.isolatedTaskNotice isolated] else []).count
        WarningMsg.cycleDetected = 0 := by
    intro isolated
    split <;> simp
  rw [h1, h3]
  split <;> simp

/-! ## Claim C2: sensitive values never reach the IR unredacted -/

/-- Membership in a redacted property list: any sensitive-keyed entry holds
the sentinel. -/
theorem redact_mem (props : List (String × Json)) (k : String) (v : Json)
    (hmem : (k, v) ∈ redact_sensitive_properties props)
    (hs : is_sensitive_property k = true) : v = Json.str REDACTED := by
  unfold redact_sensitive_properties at hmem
  rw [List.mem_map] at hmem
  obtain ⟨⟨k0, v0⟩, hkv, heq⟩ := hmem
  by_cases h : is_sensitive_property k0 = true
  · rw [if_pos h] at heq
    injection heq with h1 h2
    exact h2.symm
  · rw [if_neg h] at heq
    injection heq with h1 h2
    rw [h1] at h
    exact absurd hs h

/-- Whenever `handle_protection_level` succeeds, every sensitive-keyed
property of its result is the sentinel (every non-raising branch redacts). -/
theorem handle_ok_redacts (password : Option String) (pl : ProtectionLevel)
    (props props2 : List (String × Json))
    (hok : handle_protection_level password pl props = Except.ok props2)
    (k : String) (v : Json) (hmem : (k, v) ∈ props2)
    (hs : is_sensitive_property k = true) : v = Json.str REDACTED := by
  cases pl
  case DONT_SAVE_SENSITIVE =>
    simp only [handle_protection_level, Except.ok.injEq] at hok
    exact redact_mem props k v (hok ▸ hmem) hs
  case ENCRYPT_SENSITIVE_WITH_PASSWORD =>
    simp only [handle_protection_level, decrypt_sensitive_properties, ite_self,
      Except.ok.injEq] at hok
    exact redact_mem props k v (hok ▸ hmem) hs
  case ENCRYPT_SENSITIVE_WITH_USER_KEY =>
    simp only [handle_protection_level, decrypt_sensitive_properties, Except.ok.injEq] at hok
    exact redact_mem props k v (hok ▸ hmem) hs
  case ENCRYPT_ALL_WITH_PASSWORD =>
    simp only [handle_protection_level, decrypt_all_properties] at hok
    split at hok <;> cases hok
  case ENCRYPT_ALL_WITH_USER_KEY =>
    simp only [handle_protection_level, decrypt_all_properties] at hok
    cases hok

/-- The securing loop only produces connection managers whose
sensitive-keyed properties are the sentinel. -/
theorem secure_connections_redacts (password : Option String) (pl : ProtectionLevel) :
    ∀ (cms secured : List ConnectionManager),
      secure_connections password pl cms = Except.ok secured →
      ∀ cm ∈ secured, ∀ k v, (k, v) ∈ cm.properties →
        is_sensitive_property k = true → v = Json.str REDACTED := by
  intro cms
  induction cms with
  | nil =>
    intro secured hok
    unfold secure_connections at hok
    rw [Except.ok.injEq] at hok
    subst hok
    simp
  | cons cm rest ih =>
    intro secured hok
    unfold secure_connections at hok
    cases hh : handle_protection_level password pl cm.properties with
    | error e => rw [hh] at hok; cases hok
    | ok props =>
      rw [hh] at hok
      cases hr : secure_connections password pl rest with
      | error e => rw [hr] at hok; cases hok
      | ok rest2 =>
        rw [hr, Except.ok.injEq] at hok
        subst hok
        intro cm2 hcm2 k v hkv hs
        rcases List.mem_cons.mp hcm2 with h | h
        · subst h
          exact handle_ok_redacts password pl cm.properties props hh k v hkv hs
        · exact ih rest2 hr cm2 h k v hkv hs

/-- C2: in the IRPackage returned by `convert_file`, every connection
manager property whose key case-insensitively matches the sensitive-key
set holds the redaction sentinel, regardless of protection level. -/
theorem C2_sensitive_properties_redacted (password : Option String) (d : ReaderData)
    (cm : ConnectionManager) (k : String) (v : Json)
    (hcm : cm ∈ (convert_file password d).1.connection_managers)
    (hkv : (k, v) ∈ cm.properties)
    (hs : is_sensitive_property k = true) :
    v = Json.str REDACTED := by
  unfold convert_file at hcm
  cases hsec : secure_connections password d.protection_level d.connection_managers with
  | error e =>
    rw [hsec] at hcm
    exact absurd hcm (List.not_mem_nil cm)
  | ok secured =>
    rw [hsec] at hcm
    exact secure_connections_redacts password d.protection_level d.connection_managers
      secured hsec cm hcm k v hkv hs

/-- Connection manager example with a raw password property. -/
def exSensConn : ConnectionManager :=
  { id := "C1", name := "Conn", type := ConnectionType.OLEDB,
    properties := [("Password", Json.str "hunter2")] }

/-- Reader output example holding `exSensConn`. -/
def exSensData : ReaderData :=
  { stem := "pkg", source_file := "pkg.dtsx", package_name := "pkg",
    protection_level := ProtectionLevel.DONT_SAVE_SENSITIVE,
    connection_managers := [exSensConn] }

/-- The secured form of `exSensConn` after conversion. -/
def exSecuredConn : ConnectionManager :=
  { id := "C1", name := "Conn", type := ConnectionType.OLEDB,
    properties := [("Password", Json.str REDACTED)] }

/-- The conversion of `exSensData` stores exactly the secured connection. -/
theorem exSens_result :
    (convert_file none exSensData).1.connection_managers = [exSecuredConn] := by rfl

/-- Witness for C2 at a concrete package with a "Password" property. -/
theorem C2_sensitive_properties_redacted_witness :
    (exSecuredConn ∈ (convert_file none exSensData).1.connection_managers ∧
     ("Password", Json.str REDACTED) ∈ exSecuredConn.properties ∧
     is_sensitive_property "Password" = true) ∧
    Json.str REDACTED = Json.str REDACTED :=
  ⟨⟨exSens_result ▸ List.mem_cons_self _ _, List.mem_cons_self _ _, by decide⟩,
   C2_sensitive_properties_redacted none exSensData exSecuredConn "Password"
     (Json.str REDACTED) (exSens_result ▸ List.mem_cons_self _ _)
     (List.mem_cons_self _ _) (by decide)⟩

/-! ## Claims C1 and C10: fully-encrypted packages -/

/-- Fully-encrypted package data with no connection managers but one
parameter: the securing loop never runs. -/
def exNoCMData : ReaderData :=
  { stem := "enc", source_file := "enc.dtsx", package_name := "enc",
    protection_level := ProtectionLevel.ENCRYPT_ALL_WITH_PASSWORD,
    parameters := [{ name := "p1", type := "String" }] }

/-- C1 counterexample: an encrypt-all-with-password package with no
supplied password but zero connection managers converts successfully with a
fully-populated package, contradicting the claim's universal hard-failure. -/
theorem C1_counterexample_zero_connection_managers :
    exNoCMData.protection_level = ProtectionLevel.ENCRYPT_ALL_WITH_PASSWORD ∧
    exNoCMData.connection_managers = [] ∧
    (convert_file none exNoCMData).2.success = true ∧
    (convert_file none exNoCMData).1.parameters.length = 1 :=
  ⟨rfl, rfl, rfl, rfl⟩

/-- C1 (amended: at least one connection manager declared): handling the
protection level raises the unrecoverable-package ValueError, and
`convert_file` returns the minimal name-only package with a failure
report carrying that error. -/
theorem C1_encrypt_all_no_password_fails (password : Option String) (d : ReaderData)
    (hpl : d.protection_level = ProtectionLevel.ENCRYPT_ALL_WITH_PASSWORD)
    (hpw : password_falsy password = true)
    (hcm : d.connection_managers ≠ []) :
    (∀ props, handle_protection_level password d.protection_level props =
        Except.error (PyError.valueError "Password required for encrypted package")) ∧
    (convert_file password d).1 = { package_name := d.stem } ∧
    (convert_file password d).2.success = false ∧
    (convert_file password d).2.errors =
      [PyError.valueError "Password required for encrypted package"] := by
  have herr : ∀ props, handle_protection_level password d.protection_level props =
      Except.error (PyError.valueError "Password required for encrypted package") := by
    intro props
    rw [hpl]
    simp only [handle_protection_level]
    rw [if_pos hpw]
  have hsec : secure_connections password d.protection_level d.connection_managers =
      Except.error (PyError.valueError "Password required for encrypted package") := by
    cases hl : d.connection_managers with
    | nil => exact absurd hl hcm
    | cons cm rest =>
      unfold secure_connections
      rw [herr cm.properties]
  refine ⟨herr, ?_, ?_, ?_⟩ <;> unfold convert_file <;> rw [hsec]

/-- Fully-encrypted package data with one connection manager. -/
def exEncAllData : ReaderData :=
  { stem := "enc2", source_file := "enc2.dtsx", package_name := "enc2",
    protection_level := ProtectionLevel.ENCRYPT_ALL_WITH_PASSWORD,
    connection_managers := [exSensConn] }

/-- Witness for the amended C1 at a concrete package with one connection
manager. -/
theorem C1_encrypt_all_no_password_fails_witness :
    (exEncAllData.protection_level = ProtectionLevel.ENCRYPT_ALL_WITH_PASSWORD ∧
     password_falsy none = true ∧ exEncAllData.connection_managers ≠ []) ∧
    ((∀ props, handle_protection_level none exEncAllData.protection_level props =
        Except.error (PyError.valueError "Password required for encrypted package")) ∧
     (convert_file none exEncAllData).1 = { package_name := exEncAllData.stem } ∧
     (convert_file none exEncAllData).2.success = false ∧
     (convert_file none exEncAllData).2.errors =
       [PyError.valueError "Password required for encrypted package"]) :=
  ⟨⟨rfl, rfl, List.cons_ne_nil _ _⟩,
   C1_encrypt_all_no_password_fails none exEncAllData rfl rfl (List.cons_ne_nil _ _)⟩

/-- C10: a fully-encrypted package (encrypt-all-with-password without a
password, or encrypt-all-with-user-key) with zero connection managers
converts without error into a fully-populated IRPackage with a successful
report: the hard-failure path only runs while securing connection
managers. -/
theorem C10_fully_encrypted_no_connections_succeeds
    (password : Option String) (d : ReaderData)
    (hpl : (d.protection_level = ProtectionLevel.ENCRYPT_ALL_WITH_PASSWORD ∧
            password_falsy password = true) ∨
           d.protection_level = ProtectionLevel.ENCRYPT_ALL_WITH_USER_KEY)
    (hcm : d.connection_managers = []) :
    (convert_file password d).2.success = true ∧
    (convert_file password d).2.errors = [] ∧
    (convert_file password d).1.package_name = d.package_name ∧
    (convert_file password d).1.parameters = d.parameters ∧
    (convert_file password d).1.variables_ = d.variables_ ∧
    (convert_file password d).1.connection_managers = [] ∧
    (convert_file password d).1.executables = d.executables ∧
    (convert_file password d).1.edges = d.edges ∧
    (convert_file password d).1.expressions = d.expressions := by
  have hsec : secure_connections password d.protection_level d.connection_managers =
      Except.ok [] := by
    rw [hcm]
    rfl
  refine ⟨?_, ?_, ?_, ?_, ?_, ?_, ?_, ?_, ?_⟩ <;> unfold convert_file <;> rw [hsec]

/-- Fully-encrypted (user-key) package data with no connection managers. -/
def exUserKeyData : ReaderData :=
  { stem := "enc3", source_file := "enc3.dtsx", package_name := "enc3",
    protection_level := ProtectionLevel.ENCRYPT_ALL_WITH_USER_KEY,
    parameters := [{ name := "p1", type := "String" }],
    executables := [{ id := "T1", type := ExecutableType.EXECUTE_SQL, object_name := "SQL1" }] }

/-- Witness for C10 at a concrete fully-encrypted zero-connection package. -/
theorem C10_fully_encrypted_no_connections_succeeds_witness :
    ((exUserKeyData.protection_level = ProtectionLevel.ENCRYPT_ALL_WITH_PASSWORD ∧
      password_falsy none = true) ∨
     exUserKeyData.protection_level = ProtectionLevel.ENCRYPT_ALL_WITH_USER_KEY) ∧
    exUserKeyData.connection_managers = [] ∧
    ((convert_file none exUserKeyData).2.success = true ∧
     (convert_file none exUserKeyData).2.errors = [] ∧
     (convert_file none exUserKeyData).1.package_name = exUserKeyData.package_name ∧
     (convert_file none exUserKeyData).1.parameters = exUserKeyData.parameters ∧
     (convert_file none exUserKeyData).1.variables_ = exUserKeyData.variables_ ∧
     (convert_file none exUserKeyData).1.connection_managers = [] ∧
     (convert_file none exUserKeyData).1.executables = exUserKeyData.executables ∧
     (convert_file none exUserKeyData).1.edges = exUserKeyData.edges ∧
     (convert_file none exUserKeyData).1.expressions = exUserKeyData.expressions) :=
  ⟨Or.inr rfl, rfl,
   C10_fully_encrypted_no_connections_succeeds none exUserKeyData (Or.inr rfl) rfl⟩

/-! ## Claim C5: entry points, isolated packages, execution chains -/

/-- Folding the dict-key accumulator preserves membership. -/
theorem mem_dict_keys_aux (l : List String) :
    ∀ (acc : List String) (x : String),
      (x ∈ l.foldl (fun acc n => if n ∈ acc then acc else acc ++ [n]) acc) ↔
        x ∈ acc ∨ x ∈ l := by
  induction l with
  | nil => intro acc x; simp
  | cons a as ih =>
    intro acc x
    simp only [List.foldl_cons]
    by_cases h : a ∈ acc
    · rw [if_pos h, ih]
      constructor
      · rintro (hx | hx)
        · exact Or.inl hx
        · exact Or.inr (List.mem_cons_of_mem _ hx)
      · rintro (hx | hx)
        · exact Or.inl hx
        · rcases List.mem_cons.mp hx with rfl | hx
          · exact Or.inl h
          · exact Or.inr hx
    · rw [if_neg h, ih]
      simp only [List.mem_append, List.mem_singleton, List.mem_cons]
      tauto

/-- Membership in Python dict-key order is membership in the source list. -/
theorem mem_dict_keys (l : List String) (x : String) : x ∈ dict_keys l ↔ x ∈ l := by
  unfold dict_keys
  rw [mem_dict_keys_aux]
  simp

/-- Example packages {A, B, C}. -/
def exABCPkgs : List PackageReference :=
  [{ name := "A", file_path := "A.dtsx", relative_path := "A.dtsx" },
   { name := "B", file_path := "B.dtsx", relative_path := "B.dtsx" },
   { name := "C", file_path := "C.dtsx", relative_path := "C.dtsx" }]

/-- Example dependencies A→B and B→C. -/
def exABCDeps : List PackageDependency :=
  [{ parent_package := "A", child_package := "B", task_name := "t1", task_id := "T1" },
   { parent_package := "B", child_package := "C", task_name := "t2", task_id := "T2" }]

/-- C5: entry points are exactly the packages never appearing as a
dependency child, isolated packages are exactly those with neither incoming
nor outgoing dependency edges; for packages {A,B,C} with A→B and B→C the
analysis yields entry points ["A"], no isolated packages, and the execution
chain [A, B, C] from A. -/
theorem C5_entry_points_isolated_and_chains :
    (∀ (packages : List PackageReference) (dependencies : List PackageDependency) (p : String),
       (p ∈ (analyze_project_structure packages dependencies).entry_points ↔
         (∃ pr ∈ packages, pr.name = p) ∧ ∀ dep ∈ dependencies, dep.child_package ≠ p) ∧
       (p ∈ (analyze_project_structure packages dependencies).isolated_packages ↔
         (∃ pr ∈ packages, pr.name = p) ∧ (∀ dep ∈ dependencies, dep.child_package ≠ p) ∧
         ∀ dep ∈ dependencies, dep.parent_package ≠ p)) ∧
    (analyze_project_structure exABCPkgs exABCDeps).entry_points = ["A"] ∧
    (analyze_project_structure exABCPkgs exABCDeps).isolated_packages = [] ∧
    (analyze_project_structure exABCPkgs exABCDeps).execution_chains =
      [{ entry_point := "A", chain := ["A", "B", "C"], length := 3 }] := by
  refine ⟨fun packages dependencies p => ⟨?_, ?_⟩, by decide, by decide, by decide⟩
  · simp only [analyze_project_structure, List.mem_map, List.mem_filter, decide_eq_true_eq]
    constructor
    · rintro ⟨pr, ⟨hpr, hnot⟩, rfl⟩
      exact ⟨⟨pr, hpr, rfl⟩, fun dep hdep heq => hnot ⟨dep, hdep, heq⟩⟩
    · rintro ⟨⟨pr, hpr, rfl⟩, hall⟩
      refine ⟨pr, ⟨hpr, fun hmem => ?_⟩, rfl⟩
      obtain ⟨dep, hdep, heq⟩ := hmem
      exact hall dep hdep heq
  · simp only [analyze_project_structure, List.mem_filter, mem_dict_keys, List.mem_map,
      Bool.and_eq_true, decide_eq_true_eq]
    constructor
    · rintro ⟨⟨pr, hpr, rfl⟩, hnotin, hlen⟩
      refine ⟨⟨pr, hpr, rfl⟩, fun dep hdep heq => hnotin ⟨dep, hdep, heq⟩,
        fun dep hdep heq => ?_⟩
      unfold dep_children at hlen
      rw [if_pos (List.any_eq_true.mpr ⟨pr, hpr, by simp⟩)] at hlen
      rw [List.length_map, List.length_eq_zero, List.filter_eq_nil] at hlen
      exact hlen dep hdep (by simpa using heq)
    · rintro ⟨⟨pr, hpr, rfl⟩, hchild, hparent⟩
      refine ⟨⟨pr, hpr, rfl⟩, fun hmem => ?_, ?_⟩
      · obtain ⟨dep, hdep, heq⟩ := hmem
        exact hchild dep hdep heq
      · unfold dep_children
        rw [if_pos (List.any_eq_true.mpr ⟨pr, hpr, by simp⟩)]
        rw [List.length_map, List.length_eq_zero, List.filter_eq_nil]
        intro dep hdep
        simpa using hparent dep hdep

/-! ## Claim C6: the execution-chain trace terminates on every graph -/

/-- Fuel-independence of `trace_execution_chain`: any two fuels larger than
the number of distinct unvisited reachable nodes give the same trace. -/
theorem trace_stable (packages : List PackageReference)
    (dependencies : List PackageDependency) :
    ∀ (n m : Nat) (start : String) (visited : List String),
      ((project_nodes packages dependencies) \ visited.toFinset).card < n →
      ((project_nodes packages dependencies) \ visited.toFinset).card < m →
      trace_execution_chain packages dependencies n start visited =
        trace_execution_chain packages dependencies m start visited := by
  intro n
  induction n with
  | zero => intro m start visited h1 h2; exact absurd h1 (Nat.not_lt_zero _)
  | succ k ih =>
    intro m start visited h1 h2
    cases m with
    | zero => exact absurd h2 (Nat.not_lt_zero _)
    | succ j =>
      simp only [trace_execution_chain]
      by_cases hv : start ∈ visited
      · rw [if_pos hv, if_pos hv]
      · rw [if_neg hv, if_neg hv]
        by_cases hpkg : (packages.any fun p => decide (p.name = start)) = true
        · have hstart_mem : start ∈ project_nodes packages dependencies := by
            unfold project_nodes
            rw [List.mem_toFinset, List.mem_append]
            obtain ⟨pr, hpr, hname⟩ := List.any_eq_true.mp hpkg
            exact Or.inl (List.mem_map.mpr ⟨pr, hpr, by simpa using hname⟩)
          have hcard : ((project_nodes packages dependencies) \
              (start :: visited).toFinset).card <
              ((project_nodes packages dependencies) \ visited.toFinset).card := by
            rw [List.toFinset_cons, Finset.sdiff_insert]
            exact Finset.card_erase_lt_of_mem
              (Finset.mem_sdiff.mpr ⟨hstart_mem, by simpa using hv⟩)
          apply List.foldl_ext
          intro chain child hchild
          rw [ih j child (start :: visited)
            (lt_of_lt_of_le hcard (Nat.lt_succ_iff.mp h1))
            (lt_of_lt_of_le hcard (Nat.lt_succ_iff.mp h2))]
        · have hch : dep_children packages dependencies start = [] := by
            unfold dep_children
            rw [if_neg hpkg]
          rw [hch]
          rfl

/-- Cyclic example packages {A, B}. -/
def exCycPkgs : List PackageReference :=
  [{ name := "A", file_path := "A.dtsx", relative_path := "A.dtsx" },
   { name := "B", file_path := "B.dtsx", relative_path := "B.dtsx" }]

/-- Circular dependencies A→B and B→A. -/
def exCycDeps : List PackageDependency :=
  [{ parent_package := "A", child_package := "B", task_name := "t1", task_id := "T1" },
   { parent_package := "B", child_package := "A", task_name := "t2", task_id := "T2" }]

/-- C6: the execution-chain trace of any finite dependency graph, cyclic
ones included, stabilizes at the canonical fuel bound (the unbounded Python
recursion terminates), short-circuits to [] whenever the start package was
already visited on the current path, and on the circular graph A→B→A the
trace from A is the already-visited prefix [A, B]. -/
theorem C6_trace_terminates :
    (∀ (packages : List PackageReference) (dependencies : List PackageDependency)
       (start : String) (fuel : Nat),
       trace_fuel_bound packages dependencies ≤ fuel →
       trace_execution_chain packages dependencies fuel start [] =
         trace_execution_chain packages dependencies
           (trace_fuel_bound packages dependencies) start []) ∧
    (∀ (packages : List PackageReference) (dependencies : List PackageDependency)
       (fuel : Nat) (start : String) (visited : List String),
       start ∈ visited →
       trace_execution_chain packages dependencies fuel start visited = []) ∧
    trace_execution_chain exCycPkgs exCycDeps (trace_fuel_bound exCycPkgs exCycDeps)
      "A" [] = ["A", "B"] := by
  refine ⟨fun packages dependencies start fuel hfuel => ?_,
    fun packages dependencies fuel start visited hv => ?_, by decide⟩
  · apply trace_stable
    · simpa [Finset.sdiff_empty] using
        lt_of_lt_of_le (Nat.lt_succ_self _) hfuel
    · simp [Finset.sdiff_empty, trace_fuel_bound, Nat.lt_succ_self]
  · cases fuel with
    | zero => rfl
    | succ k =>
      simp only [trace_execution_chain]
      rw [if_pos hv]

/-! ## Claim C7: path wiring and idempotence -/

/-- `update_last_matching` preserves `any q` when `f` preserves `q`. -/
theorem update_any (p q : DataFlowComponent → Bool) (f : DataFlowComponent → DataFlowComponent)
    (hpres : ∀ c, q (f c) = q c) :
    ∀ l, (update_last_matching p f l).any q = l.any q := by
  intro l
  induction l with
  | nil => rfl
  | cons c cs ih =>
    simp only [update_last_matching]
    by_cases h : cs.any p = true
    · rw [if_pos h]
      simp only [List.any_cons, ih]
    · rw [if_neg h]
      by_cases hc : p c = true
      · rw [if_pos hc]
        simp only [List.any_cons, hpres]
      · rw [if_neg hc]

/-- Two successive updates at the same predicate compose, provided the
inner update preserves the predicate. -/
theorem update_comp (p : DataFlowComponent → Bool)
    (f g : DataFlowComponent → DataFlowComponent) (hpres : ∀ c, p (g c) = p c) :
    ∀ l, update_last_matching p f (update_last_matching p g l) =
      update_last_matching p (fun c => f (g c)) l := by
  intro l
  induction l with
  | nil => rfl
  | cons c cs ih =>
    by_cases h : cs.any p = true
    · simp only [update_last_matching]
      rw [if_pos h]
      simp only [update_last_matching]
      rw [update_any p p g hpres cs, if_pos h, if_pos h, ih]
    · simp only [update_last_matching]
      rw [if_neg h]
      by_cases hc : p c = true
      · rw [if_pos hc]
        simp only [update_last_matching]
        rw [if_neg h, if_pos (by rw [hpres]; exact hc), if_neg h, if_pos hc]
      · rw [if_neg hc]
        simp only [update_last_matching]
        rw [if_neg h, if_neg hc, if_neg h, if_neg hc]

/-- Pointwise-equal update functions give equal updates. -/
theorem update_congr (p : DataFlowComponent → Bool)
    (f g : DataFlowComponent → DataFlowComponent) (h : ∀ c, f c = g c) :
    ∀ l, update_last_matching p f l = update_last_matching p g l := by
  intro l
  induction l with
  | nil => rfl
  | cons c cs ih =>
    simp only [update_last_matching]
    rw [ih, h]

/-- Cons equation of `update_last_matching` when a later element matches. -/
theorem update_cons_of_any (p : DataFlowComponent → Bool)
    (f : DataFlowComponent → DataFlowComponent) (c : DataFlowComponent)
    (cs : List DataFlowComponent) (h : cs.any p = true) :
    update_last_matching p f (c :: cs) = c :: update_last_matching p f cs := by
  simp only [update_last_matching]
  rw [if_pos h]

/-- Cons equation of `update_last_matching` when only the head matches. -/
theorem update_cons_of_self (p : DataFlowComponent → Bool)
    (f : DataFlowComponent → DataFlowComponent) (c : DataFlowComponent)
    (cs : List DataFlowComponent) (h : cs.any p = false) (hc : p c = true) :
    update_last_matching p f (c :: cs) = f c :: cs := by
  simp only [update_last_matching]
  rw [if_neg (by rw [h]; simp), if_pos hc]

/-- Cons equation of `update_last_matching` when nothing matches. -/
theorem update_cons_of_none (p : DataFlowComponent → Bool)
    (f : DataFlowComponent → DataFlowComponent) (c : DataFlowComponent)
    (cs : List DataFlowComponent) (h : cs.any p = false) (hc : p c = false) :
    update_last_matching p f (c :: cs) = c :: cs := by
  simp only [update_last_matching]
  rw [if_neg (by rw [h]; simp), if_neg (by rw [hc]; simp)]

/-- Updates at disjoint predicates commute when each update function
preserves the other predicate. -/
theorem update_comm (p q : DataFlowComponent → Bool)
    (f g : DataFlowComponent → DataFlowComponent)
    (hfq : ∀ c, q (f c) = q c) (hgp : ∀ c, p (g c) = p c)
    (hdisj : ∀ c, p c = true → q c = false) :
    ∀ l, update_last_matching p f (update_last_matching q g l) =
      update_last_matching q g (update_last_matching p f l) := by
  intro l
  induction l with
  | nil => rfl
  | cons c cs ih =>
    cases haq : cs.any q with
    | true =>
      cases hap : cs.any p with
      | true =>
        rw [update_cons_of_any q g c cs haq, update_cons_of_any p f c cs hap,
          update_cons_of_any p f c _ (by rw [update_any q p g hgp cs]; exact hap),
          update_cons_of_any q g c _ (by rw [update_any p q f hfq cs]; exact haq), ih]
      | false =>
        cases hpc : p c with
        | true =>
          rw [update_cons_of_any q g c cs haq,
            update_cons_of_self p f c _ (by rw [update_any q p g hgp cs]; exact hap) hpc,
            update_cons_of_self p f c cs hap hpc,
            update_cons_of_any q g (f c) cs haq]
        | false =>
          rw [update_cons_of_any q g c cs haq,
            update_cons_of_none p f c _ (by rw [update_any q p g hgp cs]; exact hap) hpc,
            update_cons_of_none p f c cs hap hpc,
            update_cons_of_any q g c cs haq]
    | false =>
      cases hap : cs.any p with
      | true =>
        cases hqc : q c with
        | true =>
          have hpc : p c = false := by
            cases hpc2 : p c with
            | true => rw [hdisj c hpc2] at hqc; exact absurd hqc (by simp)
            | false => rfl
          rw [update_cons_of_self q g c cs haq hqc,
            update_cons_of_any p f (g c) cs hap,
            update_cons_of_any p f c cs hap,
            update_cons_of_self q g c _ (by rw [update_any p q f hfq cs]; exact haq) hqc]
        | false =>
          rw [update_cons_of_none q g c cs haq hqc,
            update_cons_of_any p f c cs hap,
            update_cons_of_none q g c _ (by rw [update_any p q f hfq cs]; exact haq) hqc]
      | false =>
        cases hpc : p c with
        | true =>
          rw [update_cons_of_none q g c cs haq (hdisj c hpc),
            update_cons_of_self p f c cs hap hpc,
            update_cons_of_none q g (f c) cs haq (by rw [hfq]; exact hdisj c hpc)]
        | false =>
          cases hqc : q c with
          | true =>
            rw [update_cons_of_self q g c cs haq hqc,
              update_cons_of_none p f (g c) cs hap (by rw [hgp]; exact hpc),
              update_cons_of_none p f c cs hap hpc,
              update_cons_of_self q g c cs haq hqc]
          | false =>
            rw [update_cons_of_none q g c cs haq hqc,
              update_cons_of_none p f c cs hap hpc,
              update_cons_of_none q g c cs haq hqc]

/-- Appending an output preserves the component id. -/
theorem append_output_id (path_id : String) (c : DataFlowComponent) :
    (append_output_if_absent path_id c).id = c.id := by
  unfold append_output_if_absent
  split <;> rfl

/-- Appending an input preserves the component id. -/
theorem append_input_id (path_id : String) (c : DataFlowComponent) :
    (append_input_if_absent path_id c).id = c.id := by
  unfold append_input_if_absent
  split <;> rfl

/-- The path id is present after appending it to the outputs. -/
theorem append_output_mem (path_id : String) (c : DataFlowComponent) :
    path_id ∈ (append_output_if_absent path_id c).outputs := by
  unfold append_output_if_absent
  split
  · assumption
  · simp

/-- The path id is present after appending it to the inputs. -/
theorem append_input_mem (path_id : String) (c : DataFlowComponent) :
    path_id ∈ (append_input_if_absent path_id c).inputs := by
  unfold append_input_if_absent
  split
  · assumption
  · simp

/-- Output-append is a no-op when the path id is already present. -/
theorem append_output_of_mem (path_id : String) (c : DataFlowComponent)
    (h : path_id ∈ c.outputs) : append_output_if_absent path_id c = c := by
  unfold append_output_if_absent
  rw [if_pos h]

/-- Input-append is a no-op when the path id is already present. -/
theorem append_input_of_mem (path_id : String) (c : DataFlowComponent)
    (h : path_id ∈ c.inputs) : append_input_if_absent path_id c = c := by
  unfold append_input_if_absent
  rw [if_pos h]

/-- Input-append leaves the outputs untouched. -/
theorem append_input_outputs (path_id : String) (c : DataFlowComponent) :
    (append_input_if_absent path_id c).outputs = c.outputs := by
  unfold append_input_if_absent
  split <;> rfl

/-- Output-append leaves the inputs untouched. -/
theorem append_output_inputs (path_id : String) (c : DataFlowComponent) :
    (append_output_if_absent path_id c).inputs = c.inputs := by
  unfold append_output_if_absent
  split <;> rfl

/-- One wiring pass on an already-wired list is the identity: re-running
`wire_step` on its own output changes nothing. -/
theorem wire_step_idem (components : List DataFlowComponent) (path : PathConn) :
    wire_step (wire_step components path) path = wire_step components path := by
  by_cases hcond : ((components.any fun c => decide (c.id = path.start)) &&
      (components.any fun c => decide (c.id = path.end_))) = true
  case neg =>
    unfold wire_step
    rw [if_neg hcond, if_neg hcond]
  case pos =>
    have hfq : ∀ c, decide ((append_output_if_absent path.path_id c).id = path.end_) =
        decide (c.id = path.end_) := fun c => by rw [append_output_id]
    have hfp : ∀ c, decide ((append_output_if_absent path.path_id c).id = path.start) =
        decide (c.id = path.start) := fun c => by rw [append_output_id]
    have hgq : ∀ c, decide ((append_input_if_absent path.path_id c).id = path.end_) =
        decide (c.id = path.end_) := fun c => by rw [append_input_id]
    have hgp : ∀ c, decide ((append_input_if_absent path.path_id c).id = path.start) =
        decide (c.id = path.start) := fun c => by rw [append_input_id]
    have hff : ∀ c, append_output_if_absent path.path_id
        (append_output_if_absent path.path_id c) = append_output_if_absent path.path_id c :=
      fun c => append_output_of_mem _ _ (append_output_mem _ _)
    have hgg : ∀ c, append_input_if_absent path.path_id
        (append_input_if_absent path.path_id c) = append_input_if_absent path.path_id c :=
      fun c => append_input_of_mem _ _ (append_input_mem _ _)
    have hw : wire_step components path =
        update_last_matching (fun c => decide (c.id = path.end_))
          (append_input_if_absent path.path_id)
          (update_last_matching (fun c => decide (c.id = path.start))
            (append_output_if_absent path.path_id) components) := by
      unfold wire_step
      rw [if_pos hcond]
    rw [hw]
    have hm := hcond
    rw [Bool.and_eq_true] at hm
    have hcond2 : (((update_last_matching (fun c => decide (c.id = path.end_))
        (append_input_if_absent path.path_id)
        (update_last_matching (fun c => decide (c.id = path.start))
          (append_output_if_absent path.path_id) components)).any
            fun c => decide (c.id = path.start)) &&
        ((update_last_matching (fun c => decide (c.id = path.end_))
        (append_input_if_absent path.path_id)
        (update_last_matching (fun c => decide (c.id = path.start))
          (append_output_if_absent path.path_id) components)).any
            fun c => decide (c.id = path.end_))) = true := by
      rw [Bool.and_eq_true]
      rw [update_any _ _ _ hgp, update_any _ _ _ hfp,
        update_any _ _ _ hgq, update_any _ _ _ hfq]
      exact hm
    unfold wire_step
    rw [if_pos hcond2]
    by_cases hse : path.start = path.end_
    · have hpq : (fun c : DataFlowComponent => decide (c.id = path.end_)) =
          fun c => decide (c.id = path.start) := by
        funext c
        rw [hse]
      rw [hpq]
      rw [update_comp _ _ _ hfp]
      rw [update_comp _ _ _ hgp]
      rw [update_comp _ _ _ hfp]
      rw [update_comp _ _ _ hfp]
      apply update_congr
      intro c
      have h1 : append_output_if_absent path.path_id
          (append_input_if_absent path.path_id (append_output_if_absent path.path_id c)) =
          append_input_if_absent path.path_id (append_output_if_absent path.path_id c) := by
        apply append_output_of_mem
        rw [append_input_outputs]
        exact append_output_mem _ _
      rw [h1, hgg]
    · have hdisj : ∀ c : DataFlowComponent,
          decide (c.id = path.start) = true → decide (c.id = path.end_) = false := by
        intro c hc
        rw [decide_eq_true_eq] at hc
        simp [hc, hse]
      rw [update_comm _ _ _ _ hfq hgp hdisj]
      rw [update_comp _ _ _ hgq]
      rw [update_comp _ _ _ hfp]
      rw [update_congr _ _ _ hgg, update_congr _ _ _ hff]

/-- Source component of the spec wiring example. -/
def exSrcComp : DataFlowComponent :=
  { id := "src", component_type := ComponentType.OLEDB_SOURCE, name := "Source" }

/-- Transform component of the spec wiring example. -/
def exTrComp : DataFlowComponent :=
  { id := "tr", component_type := ComponentType.DERIVED_COLUMN, name := "Transform" }

/-- Destination component of the spec wiring example. -/
def exDstComp : DataFlowComponent :=
  { id := "dst", component_type := ComponentType.OLEDB_DESTINATION, name := "Destination" }

/-- Path source → transform of the spec wiring example. -/
def exPath1 : PathConn := { start := "src", end_ := "tr", path_id := "path1" }

/-- Path transform → destination of the spec wiring example. -/
def exPath2 : PathConn := { start := "tr", end_ := "dst", path_id := "path2" }

/-- C7: wiring appends each path id to the start component's outputs and
the end component's inputs, is idempotent on re-processed paths, and wires
the three-component example exactly as the spec describes. -/
theorem C7_wiring_appends_and_is_idempotent :
    (∀ (components : List DataFlowComponent) (path : PathConn),
       wire_step (wire_step components path) path = wire_step components path) ∧
    wire_components [exSrcComp, exTrComp, exDstComp] [exPath1, exPath2] =
      [{ exSrcComp with outputs := ["path1"] },
       { exTrComp with inputs := ["path1"], outputs := ["path2"] },
       { exDstComp with inputs := ["path2"] }] :=
  ⟨wire_step_idem, by rfl⟩

/-- Witness for C6: past the canonical bound (3 here), extra fuel changes
nothing on the cyclic example. -/
theorem C6_trace_terminates_witness :
    trace_fuel_bound exCycPkgs exCycDeps ≤ 5 ∧
    trace_execution_chain exCycPkgs exCycDeps 5 "A" [] =
      trace_execution_chain exCycPkgs exCycDeps
        (trace_fuel_bound exCycPkgs exCycDeps) "A" [] :=
  ⟨by decide, C6_trace_terminates.1 exCycPkgs exCycDeps "A" 5 (by decide)⟩

/-- A parseable constraint (Success). -/
def exGoodConstraint : RawConstraint :=
  { fromTask := some "A", toTask := some "B", value := some "Success" }

/-- A second parseable constraint (code 2 = completion). -/
def exGoodConstraint2 : RawConstraint :=
  { fromTask := some "B", toTask := some "C", value := some "2" }

/-- A constraint whose value maps to no condition. -/
def exBadConstraint : RawConstraint :=
  { fromTask := some "A", toTask := some "C", value := some "Banana" }

/-- Witness for C8: dropping the one unmappable constraint keeps the other
two edges. -/
theorem C8_condition_mapping_witness :
    map_precedence_condition exBadConstraint.value = none ∧
    parse_precedence_constraints ([exGoodConstraint] ++ exBadConstraint :: [exGoodConstraint2]) =
      parse_precedence_constraints [exGoodConstraint] ++
        parse_precedence_constraints [exGoodConstraint2] :=
  ⟨by decide,
   C8_condition_mapping_and_single_edge_skip.2 [exGoodConstraint] [exGoodConstraint2]
     exBadConstraint (by decide)⟩

/-! ## Claim C9: JSON round-trip of IRPackage

models/ir.py `ir_to_json` is pydantic `model_dump_json` and
`json_to_ir_package` is `model_validate_json`.  The JSON text layer is
modelled at the level of the JSON value tree: dumping emits every field in
declaration order (enums as their value strings, None as null), validation
looks fields up by key, applies each field's default when the key is
absent, and rejects ill-typed values. -/

/-- Dump of an `Optional[str]` field. -/
def encodeOptStr : Option String → Json
  | none => Json.null
  | some s => Json.str s

/-- Key lookup in a JSON object. -/
def jLookup (fields : List (String × Json)) (key : String) : Option Json :=
  (fields.find? fun kv => kv.1 = key).map fun kv => kv.2

/-- Validate a JSON value as a string. -/
def asStr : Json → Option String
  | Json.str s => some s
  | _ => none

/-- Validate a JSON value as an optional string. -/
def asOptStr : Json → Option (Option String)
  | Json.null => some none
  | Json.str s => some (some s)
  | _ => none

/-- Validate a JSON value as a boolean. -/
def asBool : Json → Option Bool
  | Json.bool b => some b
  | _ => none

/-- Validate a JSON value as a string-keyed dict. -/
def asProps : Json → Option (List (String × Json))
  | Json.obj fs => some fs
  | _ => none

/-- Elementwise validation of a list of JSON values. -/
def decodeAll {α : Type} (parse : Json → Option α) : List Json → Option (List α)
  | [] => some []
  | x :: xs => do
    let a ← parse x
    let rest ← decodeAll parse xs
    pure (a :: rest)

/-- Validate a JSON value as a list, elementwise. -/
def asList {α : Type} (parse : Json → Option α) : Json → Option (List α)
  | Json.arr xs => decodeAll parse xs
  | _ => none

/-- Validate a JSON value as a list of strings. -/
def asStrList : Json → Option (List String) :=
  asList asStr

/-- Read of a required model field. -/
def fieldR {α : Type} (fields : List (String × Json)) (key : String)
    (parse : Json → Option α) : Option α :=
  (jLookup fields key).bind parse

/-- Read of a defaulted model field: an absent key yields the default. -/
def fieldD {α : Type} (fields : List (String × Json)) (key : String)
    (parse : Json → Option α) (default : α) : Option α :=
  match jLookup fields key with
  | none => some default
  | some v => parse v

/-- Dump of a `Parameter`. -/
def parameter_to_json (p : Parameter) : Json :=
  Json.obj [("name", Json.str p.name), ("type", Json.str p.type),
    ("value", p.value), ("description", encodeOptStr p.description)]

/-- Validation of a `Parameter`. -/
def parameter_from_json (j : Json) : Option Parameter := do
  let fs ← asProps j
  let name ← fieldR fs "name" asStr
  let ty ← fieldR fs "type" asStr
  let value ← fieldD fs "value" some Json.null
  let description ← fieldD fs "description" asOptStr none
  pure { name := name, type := ty, value := value, description := description }

/-- Dump of a `Variable`. -/
def variable_to_json (v : Variable) : Json :=
  Json.obj [("name", Json.str v.name), ("type", Json.str v.type),
    ("value", v.value), ("description", encodeOptStr v.description),
    ("scope", Json.str v.scope)]

/-- Validation of a `Variable`. -/
def variable_from_json (j : Json) : Option Variable := do
  let fs ← asProps j
  let name ← fieldR fs "name" asStr
  let ty ← fieldR fs "type" asStr
  let value ← fieldD fs "value" some Json.null
  let description ← fieldD fs "description" asOptStr none
  let scope ← fieldD fs "scope" asStr "Package"
  pure { name := name, type := ty, value := value, description := description,
         scope := scope }

/-- Dump of a `ConnectionManager`. -/
def connection_manager_to_json (c : ConnectionManager) : Json :=
  Json.obj [("id", Json.str c.id), ("name", Json.str c.name),
    ("type", Json.str c.type.value), ("properties", Json.obj c.properties),
    ("sensitive", Json.bool c.sensitive), ("description", encodeOptStr c.description)]

/-- Validation of a `ConnectionManager`. -/
def connection_manager_from_json (j : Json) : Option ConnectionManager := do
  let fs ← asProps j
  let id ← fieldR fs "id" asStr
  let name ← fieldR fs "name" asStr
  let ty ← fieldR fs "type" fun v => (asStr v).bind ConnectionType.fromValue
  let properties ← fieldD fs "properties" asProps []
  let sensitive ← fieldD fs "sensitive" asBool false
  let description ← fieldD fs "description" asOptStr none
  pure { id := id, name := name, type := ty, properties := properties,
         sensitive := sensitive, description := description }

/-- Dump of a `DataFlowComponent`. -/
def data_flow_component_to_json (c : DataFlowComponent) : Json :=
  Json.obj [("id", Json.str c.id),
    ("component_type", Json.str c.component_type.value),
    ("name", Json.str c.name), ("sql", encodeOptStr c.sql),
    ("table", encodeOptStr c.table), ("expression", encodeOptStr c.expression),
    ("properties", Json.obj c.properties),
    ("inputs", Json.arr (c.inputs.map Json.str)),
    ("outputs", Json.arr (c.outputs.map Json.str)),
    ("join_on", Json.arr (c.join_on.map Json.str)),
    ("ref", encodeOptStr c.ref), ("mode", encodeOptStr c.mode)]

/-- Validation of a `DataFlowComponent` (`ref` and `mode` carry no default
in the source model, so they are required). -/
def data_flow_component_from_json (j : Json) : Option DataFlowComponent := do
  let fs ← asProps j
  let id ← fieldR fs "id" asStr
  let component_type ← fieldR fs "component_type"
    fun v => (asStr v).bind ComponentType.fromValue
  let name ← fieldR fs "name" asStr
  let sql ← fieldD fs "sql" asOptStr none
  let table ← fieldD fs "table" asOptStr none
  let expression ← fieldD fs "expression" asOptStr none
  let properties ← fieldD fs "properties" asProps []
  let inputs ← fieldD fs "inputs" asStrList []
  let outputs ← fieldD fs "outputs" asStrList []
  let join_on ← fieldD fs "join_on" asStrList []
  let ref ← fieldR fs "ref" asOptStr
  let mode ← fieldR fs "mode" asOptStr
  pure { id := id, component_type := component_type, name := name, sql := sql,
         table := table, expression := expression, properties := properties,
         inputs := inputs, outputs := outputs, join_on := join_on,
         ref := ref, mode := mode }

/-- Dump of an `Optional[SqlDialect]` field. -/
def encodeOptDialect : Option SqlDialect → Json
  | none => Json.null
  | some d => Json.str d.value

/-- Validation of an `Optional[SqlDialect]` field. -/
def asOptDialect : Json → Option (Option SqlDialect)
  | Json.null => some none
  | Json.str s => (SqlDialect.fromValue s).map some
  | _ => none

/-- Dump of an `Executable`. -/
def executable_to_json (e : Executable) : Json :=
  Json.obj [("id", Json.str e.id), ("type", Json.str e.type.value),
    ("object_name", Json.str e.object_name),
    ("dialect", encodeOptDialect e.dialect), ("sql", encodeOptStr e.sql),
    ("parameter_refs", Json.arr (e.parameter_refs.map Json.str)),
    ("variable_refs", Json.arr (e.variable_refs.map Json.str)),
    ("components", Json.arr (e.components.map data_flow_component_to_json)),
    ("properties", Json.obj e.properties),
    ("connection_ref", encodeOptStr e.connection_ref),
    ("delay_validation", Json.bool e.delay_validation),
    ("disabled", Json.bool e.disabled)]

/-- Validation of an `Executable`. -/
def executable_from_json (j : Json) : Option Executable := do
  let fs ← asProps j
  let id ← fieldR fs "id" asStr
  let ty ← fieldR fs "type" fun v => (asStr v).bind ExecutableType.fromValue
  let object_name ← fieldR fs "object_name" asStr
  let dialect ← fieldD fs "dialect" asOptDialect none
  let sql ← fieldD fs "sql" asOptStr none
  let parameter_refs ← fieldD fs "parameter_refs" asStrList []
  let variable_refs ← fieldD fs "variable_refs" asStrList []
  let components ← fieldD fs "components" (asList data_flow_component_from_json) []
  let properties ← fieldD fs "properties" asProps []
  let connection_ref ← fieldD fs "connection_ref" asOptStr none
  let delay_validation ← fieldD fs "delay_validation" asBool false
  let disabled ← fieldD fs "disabled" asBool false
  pure { id := id, type := ty, object_name := object_name, dialect := dialect,
         sql := sql, parameter_refs := parameter_refs,
         variable_refs := variable_refs, components := components,
         properties := properties, connection_ref := connection_ref,
         delay_validation := delay_validation, disabled := disabled }

/-- Dump of a `PrecedenceEdge`. -/
def precedence_edge_to_json (e : PrecedenceEdge) : Json :=
  Json.obj [("from_task", Json.str e.from_task), ("to_task", Json.str e.to_task),
    ("condition", Json.str e.condition.value),
    ("expression", encodeOptStr e.expression),
    ("logical_and", Json.bool e.logical_and)]

/-- Validation of a `PrecedenceEdge` (`expression` carries no default in
the source model, so it is required). -/
def precedence_edge_from_json (j : Json) : Option PrecedenceEdge := do
  let fs ← asProps j
  let from_task ← fieldR fs "from_task" asStr
  let to_task ← fieldR fs "to_task" asStr
  let condition ← fieldR fs "condition"
    fun v => (asStr v).bind PrecedenceCondition.fromValue
  let expression ← fieldR fs "expression" asOptStr
  let logical_and ← fieldD fs "logical_and" asBool true
  pure { from_task := from_task, to_task := to_task, condition := condition,
         expression := expression, logical_and := logical_and }

/-- Dump of an `Expression`. -/
def expression_to_json (e : Expression) : Json :=
  Json.obj [("scope", Json.str e.scope), ("property", Json.str e.property),
    ("expression", Json.str e.expression)]

/-- Validation of an `Expression`. -/
def expression_from_json (j : Json) : Option Expression := do
  let fs ← asProps j
  let scope ← fieldR fs "scope" asStr
  let property ← fieldR fs "property" asStr
  let expression ← fieldR fs "expression" asStr
  pure { scope := scope, property := property, expression := expression }

/-- models/ir.py `ir_to_json` restricted to IRPackage: the stable JSON
schema, fields in declaration order. -/
def ir_to_json (p : IRPackage) : Json :=
  Json.obj [("package_name", Json.str p.package_name),
    ("protection_level", Json.str p.protection_level.value),
    ("parameters", Json.arr (p.parameters.map parameter_to_json)),
    ("variables", Json.arr (p.variables_.map variable_to_json)),
    ("connection_managers", Json.arr (p.connection_managers.map connection_manager_to_json)),
    ("executables", Json.arr (p.executables.map executable_to_json)),
    ("edges", Json.arr (p.edges.map precedence_edge_to_json)),
    ("expressions", Json.arr (p.expressions.map expression_to_json)),
    ("version_build", encodeOptStr p.version_build),
    ("version_comments", encodeOptStr p.version_comments),
    ("creator_name", encodeOptStr p.creator_name),
    ("creation_date", encodeOptStr p.creation_date)]

/-- models/ir.py `json_to_ir_package`: validation of the JSON document into
an IRPackage. -/
def json_to_ir_package (j : Json) : Option IRPackage := do
  let fs ← asProps j
  let package_name ← fieldR fs "package_name" asStr
  let protection_level ← fieldD fs "protection_level"
    (fun v => (asStr v).bind ProtectionLevel.fromValue) ProtectionLevel.DONT_SAVE_SENSITIVE
  let parameters ← fieldD fs "parameters" (asList parameter_from_json) []
  let variables2 ← fieldD fs "variables" (asList variable_from_json) []
  let connection_managers ← fieldD fs "connection_managers"
    (asList connection_manager_from_json) []
  let executables ← fieldD fs "executables" (asList executable_from_json) []
  let edges ← fieldD fs "edges" (asList precedence_edge_from_json) []
  let expressions ← fieldD fs "expressions" (asList expression_from_json) []
  let version_build ← fieldD fs "version_build" asOptStr none
  let version_comments ← fieldD fs "version_comments" asOptStr none
  let creator_name ← fieldD fs "creator_name" asOptStr none
  let creation_date ← fieldD fs "creation_date" asOptStr none
  pure { package_name := package_name, protection_level := protection_level,
         parameters := parameters, variables_ := variables2,
         connection_managers := connection_managers, executables := executables,
         edges := edges, expressions := expressions,
         version_build := version_build, version_comments := version_comments,
         creator_name := creator_name, creation_date := creation_date }

/-- Enum value strings validate back to the member. -/
theorem protection_level_roundtrip (pl : ProtectionLevel) :
    ProtectionLevel.fromValue pl.value = some pl := by
  cases pl <;> rfl

/-- Enum value strings validate back to the member. -/
theorem connection_type_roundtrip (t : ConnectionType) :
    ConnectionType.fromValue t.value = some t := by
  cases t <;> rfl

/-- Enum value strings validate back to the member. -/
theorem executable_type_roundtrip (t : ExecutableType) :
    ExecutableType.fromValue t.value = some t := by
  cases t <;> rfl

/-- Enum value strings validate back to the member. -/
theorem component_type_roundtrip (t : ComponentType) :
    ComponentType.fromValue t.value = some t := by
  cases t <;> rfl

/-- Enum value strings validate back to the member. -/
theorem precedence_condition_roundtrip (c : PrecedenceCondition) :
    PrecedenceCondition.fromValue c.value = some c := by
  cases c <;> rfl

/-- Optional strings dump and validate back unchanged. -/
theorem opt_str_roundtrip (o : Option String) : asOptStr (encodeOptStr o) = some o := by
  cases o <;> rfl

/-- Optional dialects dump and validate back unchanged. -/
theorem opt_dialect_roundtrip (o : Option SqlDialect) :
    asOptDialect (encodeOptDialect o) = some o := by
  cases o with
  | none => rfl
  | some d => cases d <;> rfl

/-- Lookup steps through one object field. -/
theorem jLookup_cons (k : String) (v : Json) (rest : List (String × Json)) (key : String) :
    jLookup ((k, v) :: rest) key = if k = key then some v else jLookup rest key := by
  by_cases h : k = key
  · rw [if_pos h]
    unfold jLookup
    rw [List.find?_cons_of_pos _ (by simp [h])]
    rfl
  · rw [if_neg h]
    unfold jLookup
    rw [List.find?_cons_of_neg _ (by simp [h])]

/-- Lookup in the empty object fails. -/
theorem jLookup_nil (key : String) : jLookup [] key = none := rfl

/-- Elementwise round-trips lift to lists. -/
theorem decodeAll_roundtrip {α : Type} (enc : α → Json) (dec : Json → Option α)
    (h : ∀ a, dec (enc a) = some a) : ∀ l : List α, decodeAll dec (l.map enc) = some l := by
  intro l
  induction l with
  | nil => rfl
  | cons a as ih => simp [decodeAll, h, ih]

/-- String lists dump and validate back unchanged. -/
theorem str_list_roundtrip (l : List String) :
    asStrList (Json.arr (l.map Json.str)) = some l := by
  unfold asStrList asList
  exact decodeAll_roundtrip Json.str asStr (fun s => rfl) l

/-- Parameters dump and validate back unchanged. -/
theorem parameter_roundtrip (p : Parameter) :
    parameter_from_json (parameter_to_json p) = some p := by
  cases p
  simp [parameter_to_json, parameter_from_json, asProps, fieldR, fieldD, jLookup_cons, jLookup_nil, asStr, opt_str_roundtrip]

/-- Variables dump and validate back unchanged. -/
theorem variable_roundtrip (v : Variable) :
    variable_from_json (variable_to_json v) = some v := by
  cases v
  simp [variable_to_json, variable_from_json, asProps, fieldR, fieldD, jLookup_cons, jLookup_nil, asStr, opt_str_roundtrip]

/-- Connection managers dump and validate back unchanged. -/
theorem connection_manager_roundtrip (c : ConnectionManager) :
    connection_manager_from_json (connection_manager_to_json c) = some c := by
  cases c
  simp [connection_manager_to_json, connection_manager_from_json, asProps, fieldR,
    fieldD, jLookup_cons, jLookup_nil, asStr, asBool, opt_str_roundtrip,
    connection_type_roundtrip]

set_option maxHeartbeats 2000000 in
/-- Data-flow components dump and validate back unchanged. -/
theorem data_flow_component_roundtrip (c : DataFlowComponent) :
    data_flow_component_from_json (data_flow_component_to_json c) = some c := by
  cases c
  simp [data_flow_component_to_json, data_flow_component_from_json, asProps, fieldR,
    fieldD, jLookup_cons, jLookup_nil, asStr, asBool, opt_str_roundtrip,
    component_type_roundtrip, str_list_roundtrip]

set_option maxHeartbeats 2000000 in
/-- Executables dump and validate back unchanged. -/
theorem executable_roundtrip (e : Executable) :
    executable_from_json (executable_to_json e) = some e := by
  cases e
  simp [executable_to_json, executable_from_json, asProps, fieldR, fieldD, jLookup_cons, jLookup_nil, asStr, asBool, asList, opt_str_roundtrip, opt_dialect_roundtrip,
    executable_type_roundtrip, str_list_roundtrip,
    decodeAll_roundtrip _ _ data_flow_component_roundtrip]

/-- Precedence edges dump and validate back unchanged. -/
theorem precedence_edge_roundtrip (e : PrecedenceEdge) :
    precedence_edge_from_json (precedence_edge_to_json e) = some e := by
  cases e
  simp [precedence_edge_to_json, precedence_edge_from_json, asProps, fieldR, fieldD,
    jLookup_cons, jLookup_nil, asStr, asBool, opt_str_roundtrip,
    precedence_condition_roundtrip]

/-- Expressions dump and validate back unchanged. -/
theorem expression_roundtrip (e : Expression) :
    expression_from_json (expression_to_json e) = some e := by
  cases e
  simp [expression_to_json, expression_from_json, asProps, fieldR, fieldD, jLookup_cons, jLookup_nil, asStr]

set_option maxHeartbeats 2000000 in
/-- C9: serializing an IRPackage to the stable JSON schema with
`ir_to_json` and deserializing with `json_to_ir_package` reproduces a
structure equal to the original. -/
theorem C9_ir_package_json_roundtrip (p : IRPackage) :
    json_to_ir_package (ir_to_json p) = some p := by
  cases p
  simp [ir_to_json, json_to_ir_package, asProps, fieldR, fieldD, jLookup_cons, jLookup_nil, asStr, asList, opt_str_roundtrip, protection_level_roundtrip,
    decodeAll_roundtrip _ _ parameter_roundtrip,
    decodeAll_roundtrip _ _ variable_roundtrip,
    decodeAll_roundtrip _ _ connection_manager_roundtrip,
    decodeAll_roundtrip _ _ executable_roundtrip,
    decodeAll_roundtrip _ _ precedence_edge_roundtrip,
    decodeAll_roundtrip _ _ expression_roundtrip]

end SSISMig
